import Mathlib

/-!
# Order service: shallow embedding and checked properties

Embedding of `internal/domain`, `internal/repository` (the two repository
interfaces and `OrderRepo.Create` of `order_repo.go`),
`internal/services/order_service.go` and
`internal/api/handlers/order_handler.go`.

Conventions of the embedding

* `int64` / `int` values are `Int`; the code performs no integer arithmetic on
  them, so no wrap-around can occur.
* `float64` is an abstract carrier `F` with the four operations the code uses
  (`Float64`).  No algebraic law is assumed, so every statement holds for IEEE
  arithmetic as well as for exact arithmetic.
* A Go result pair `(*T, error)` is `Except GoError T`.  The pair `(nil, nil)`,
  on which the callers below would dereference a nil pointer, is outside the
  model.
* The repositories and the order service are interfaces in the source; they are
  records of state-passing functions over an arbitrary world state `σ`
  (database contents, mock expectations, ...).
* `context.Context` arguments are dropped: the code only passes them on.
* An HTTP response is its status, its `Content-Type` and what was written to
  the body.  The handler receives the outcome of JSON decoding; of JSON
  encoding the model keeps whether it succeeds (it fails on an infinite or NaN
  `float64`) and which value was encoded, not the bytes.
-/

namespace Orders

/-! ## Errors -/

/-- Go `error` values: `errors.New(text)` and `fmt.Errorf` with a `%w` verb,
whose `text` is the fully formatted message and `err` the wrapped cause. -/
inductive GoError where
  | new (text : String) : GoError
  | wrap (text : String) (err : GoError) : GoError
deriving DecidableEq, Repr

/-- The `Error()` method. -/
def GoError.Error : GoError → String
  | .new text => text
  | .wrap text _ => text

/-- The `Unwrap()` method (`errors.Unwrap`). -/
def GoError.Unwrap : GoError → Option GoError
  | .new _ => none
  | .wrap _ err => some err

deriving instance DecidableEq for Except

/-- Formatting of an `int64` by the `%d` verb. -/
def fmtD (n : Int) : String := toString n

/-- Substring test on messages, as `strings.Contains` / `assert.Contains`. -/
def Contains (s substr : String) : Prop := substr.data <:+: s.data

instance (s substr : String) : Decidable (Contains s substr) := by
  unfold Contains; infer_instance

/-! ## Domain (`internal/domain`) -/

/-- The `float64` operations used by the service: the zero value, `+`, `*` and
the conversion `float64(n)` of an integer. -/
class Float64 (F : Type) where
  zero : F
  add : F → F → F
  mul : F → F → F
  ofInt : Int → F

/-- Exact integer arithmetic as one interpretation of the `float64` operations,
used to evaluate the definitions on concrete inputs. -/
instance exactInt : Float64 Int where
  zero := 0
  add := Int.add
  mul := Int.mul
  ofInt := id

/-- A `time.Time`, as an integer instant; the zero value is `0`. -/
abbrev Time := Int

structure Product (F : Type) where
  ID : Int
  Name : String
  Price : F
  VAT : F
deriving DecidableEq, Repr

structure OrderItem (F : Type) where
  ProductID : Int
  Quantity : Int
  Price : F
  VAT : F
deriving DecidableEq, Repr

structure Order (F : Type) where
  ID : Int
  Items : List (OrderItem F)
  Price : F
  VAT : F
  CreatedAt : Time
deriving DecidableEq, Repr

/-- The anonymous struct in field `Order` of `CreateOrderRequest`. -/
structure CreateOrderRequest.OrderField (F : Type) where
  Items : List (OrderItem F)
deriving DecidableEq, Repr

structure CreateOrderRequest (F : Type) where
  Order : CreateOrderRequest.OrderField F
deriving DecidableEq, Repr

structure OrderResponse (F : Type) where
  OrderID : Int
  OrderPrice : F
  OrderVAT : F
  Items : List (OrderItem F)
deriving DecidableEq, Repr

/-! ## Repository interfaces (`internal/repository/repository.go`) -/

structure ProductRepository (σ F : Type) where
  GetByID : Int → σ → Except GoError (Product F) × σ

structure OrderRepository (σ F : Type) where
  Create : Order F → σ → Except GoError (Order F) × σ
  GetByID : Int → σ → Except GoError (Order F) × σ

/-! ## Order service (`internal/services/order_service.go`) -/

structure OrderService (σ F : Type) where
  orderRepo : OrderRepository σ F
  productRepo : ProductRepository σ F

def NewOrderService {σ F : Type} (orderRepo : OrderRepository σ F)
    (productRepo : ProductRepository σ F) : OrderService σ F :=
  { orderRepo := orderRepo, productRepo := productRepo }

/-- The `for i, item := range order.Items` loop of `CreateOrder` (lines 55-73),
run on the items not yet visited with the running totals.  It returns the
error of the early `return` at line 59, or the visited items with `Price` and
`VAT` overwritten (lines 67-68) together with the final totals. -/
def OrderService.pricingLoop {σ F : Type} [Float64 F] (s : OrderService σ F) :
    List (OrderItem F) → F → F → σ → Except GoError (List (OrderItem F) × F × F) × σ
  | [], totalPrice, totalVAT, w => (.ok ([], totalPrice, totalVAT), w)
  | item :: rest, totalPrice, totalVAT, w =>
    match s.productRepo.GetByID item.ProductID w with
    | (.error err, w1) =>
      (.error (.wrap ("product with ID " ++ fmtD item.ProductID ++ " not found: " ++ err.Error)
        err), w1)
    | (.ok product, w1) =>
      let itemPrice := Float64.mul product.Price (Float64.ofInt item.Quantity)
      let itemVAT := Float64.mul product.VAT (Float64.ofInt item.Quantity)
      match s.pricingLoop rest (Float64.add totalPrice itemPrice)
          (Float64.add totalVAT itemVAT) w1 with
      | (.error e, w2) => (.error e, w2)
      | (.ok (items, tp, tv), w2) =>
        (.ok ({ item with Price := itemPrice, VAT := itemVAT } :: items, tp, tv), w2)

/-- `OrderService.CreateOrder` (lines 46-94).  The in-place update of the
request's item slice, which `order.Items` aliases, is visible here only
through the order handed to `Create`. -/
def OrderService.CreateOrder {σ F : Type} [Float64 F] (s : OrderService σ F)
    (req : CreateOrderRequest F) (w : σ) : Except GoError (OrderResponse F) × σ :=
  match s.pricingLoop req.Order.Items Float64.zero Float64.zero w with
  | (.error err, w1) => (.error err, w1)
  | (.ok (items, totalPrice, totalVAT), w1) =>
    let order : Order F :=
      { ID := 0, Items := items, Price := totalPrice, VAT := totalVAT, CreatedAt := 0 }
    match s.orderRepo.Create order w1 with
    | (.error err, w2) => (.error (.wrap ("failed to create order: " ++ err.Error) err), w2)
    | (.ok createdOrder, w2) =>
      (.ok { OrderID := createdOrder.ID, OrderPrice := createdOrder.Price,
             OrderVAT := createdOrder.VAT, Items := createdOrder.Items }, w2)

/-- `OrderService.GetOrder` (lines 106-120). -/
def OrderService.GetOrder {σ F : Type} (s : OrderService σ F) (id : Int) (w : σ) :
    Except GoError (OrderResponse F) × σ :=
  match s.orderRepo.GetByID id w with
  | (.error err, w1) => (.error err, w1)
  | (.ok order, w1) =>
    (.ok { OrderID := order.ID, OrderPrice := order.Price, OrderVAT := order.VAT,
           Items := order.Items }, w1)

/-! ## Recording of repository calls

Instrumentation, not part of the source: a repository wrapped so that the world
also carries the list of the calls received, each with its arguments and the
value returned, in the order of the calls (as the mocks of the test files
record them with `m.Called`).  Running the service on wrapped repositories
yields the calls it makes. -/

/-- One call to a repository method, with the value it returned. -/
inductive RepoCall (F : Type) where
  | productGetByID (id : Int) (ret : Except GoError (Product F)) : RepoCall F
  | orderCreate (order : Order F) (ret : Except GoError (Order F)) : RepoCall F
  | orderGetByID (id : Int) (ret : Except GoError (Order F)) : RepoCall F
deriving DecidableEq

def ProductRepository.recording {σ F : Type} (r : ProductRepository σ F) :
    ProductRepository (σ × List (RepoCall F)) F :=
  { GetByID := fun id w =>
      ((r.GetByID id w.1).1,
        ((r.GetByID id w.1).2, w.2 ++ [RepoCall.productGetByID id (r.GetByID id w.1).1])) }

def OrderRepository.recording {σ F : Type} (r : OrderRepository σ F) :
    OrderRepository (σ × List (RepoCall F)) F :=
  { Create := fun order w =>
      ((r.Create order w.1).1,
        ((r.Create order w.1).2, w.2 ++ [RepoCall.orderCreate order (r.Create order w.1).1]))
    GetByID := fun id w =>
      ((r.GetByID id w.1).1,
        ((r.GetByID id w.1).2, w.2 ++ [RepoCall.orderGetByID id (r.GetByID id w.1).1])) }

def OrderService.recording {σ F : Type} (s : OrderService σ F) :
    OrderService (σ × List (RepoCall F)) F :=
  NewOrderService s.orderRepo.recording s.productRepo.recording

/-- The repository calls made by `CreateOrder req` started in world `w`. -/
def OrderService.CreateOrderCalls {σ F : Type} [Float64 F] (s : OrderService σ F)
    (req : CreateOrderRequest F) (w : σ) : List (RepoCall F) :=
  (s.recording.CreateOrder req (w, [])).2.2

/-- The repository calls made by `GetOrder id` started in world `w`. -/
def OrderService.GetOrderCalls {σ F : Type} (s : OrderService σ F) (id : Int) (w : σ) :
    List (RepoCall F) :=
  (s.recording.GetOrder id (w, [])).2.2

def RepoCall.isProductGetByID {F : Type} : RepoCall F → Bool
  | .productGetByID _ _ => true
  | _ => false

def RepoCall.isOrderCreate {F : Type} : RepoCall F → Bool
  | .orderCreate _ _ => true
  | _ => false

def RepoCall.isOrderGetByID {F : Type} : RepoCall F → Bool
  | .orderGetByID _ _ => true
  | _ => false

/-! ## Vocabulary of the statements

Not part of the source: what the theorems below compare the runs of the
service with. -/

/-- The totals after the loop has visited `items`, having found `products` for
them: `price * float64(quantity)` added to `acc` item by item, in order, as
`totalPrice += itemPrice` does. -/
def accumulate {F : Type} [Float64 F] (unit : Product F → F) (acc : F)
    (items : List (OrderItem F)) (products : List (Product F)) : F :=
  (List.zip items products).foldl
    (fun t ip => Float64.add t (Float64.mul (unit ip.2) (Float64.ofInt ip.1.Quantity))) acc

/-- The sum over the items, in order, of `price * float64(quantity)`, starting
from the zero value of `float64`. -/
def sumLines {F : Type} [Float64 F] (unit : Product F → F) (items : List (OrderItem F))
    (products : List (Product F)) : F :=
  accumulate unit Float64.zero items products

/-- An item with the line price and line VAT computed from its product. -/
def pricedItem {F : Type} [Float64 F] (item : OrderItem F) (product : Product F) :
    OrderItem F :=
  { item with
    Price := Float64.mul product.Price (Float64.ofInt item.Quantity)
    VAT := Float64.mul product.VAT (Float64.ofInt item.Quantity) }

/-- The record of one successful lookup per item, in the order of the items. -/
def lookupsOk {F : Type} (items : List (OrderItem F)) (products : List (Product F)) :
    List (RepoCall F) :=
  List.zipWith (fun item product => RepoCall.productGetByID item.ProductID (.ok product))
    items products

/-- A recorded call is not a product lookup that returned an error. -/
def RepoCall.lookupSucceeded {F : Type} : RepoCall F → Prop
  | .productGetByID _ (.error _) => False
  | _ => True

instance {F : Type} (c : RepoCall F) : Decidable c.lookupSucceeded := by
  unfold RepoCall.lookupSucceeded; split <;> infer_instance

/-- A recorded call is not a `Create` that failed or that returned an order
differing from its argument in more than `ID` and `CreatedAt`. -/
def RepoCall.createEnriches {F : Type} : RepoCall F → Prop
  | .orderCreate order (.ok created) =>
    created.Items = order.Items ∧ created.Price = order.Price ∧ created.VAT = order.VAT
  | .orderCreate _ (.error _) => False
  | _ => True

instance {F : Type} [DecidableEq F] (c : RepoCall F) : Decidable c.createEnriches := by
  unfold RepoCall.createEnriches; split <;> infer_instance

/-- A recorded call is not a `Create` that returned something else than the
error `e`. -/
def RepoCall.createFailsWith {F : Type} (e : GoError) : RepoCall F → Prop
  | .orderCreate _ ret => ret = .error e
  | _ => True

instance {F : Type} [DecidableEq F] (e : GoError) (c : RepoCall F) :
    Decidable (c.createFailsWith e) := by
  unfold RepoCall.createFailsWith; split <;> infer_instance

/-- The order `CreateOrder` hands to `Create` (lines 48-77) when the lookups
for `items` returned `products`: no identifier or timestamp yet, the items
priced, the totals accumulated. -/
def pricedOrder {F : Type} [Float64 F] (items : List (OrderItem F))
    (products : List (Product F)) : Order F :=
  { ID := 0
    Items := List.zipWith pricedItem items products
    Price := sumLines Product.Price items products
    VAT := sumLines Product.VAT items products
    CreatedAt := 0 }

/-- The response built from an order (lines 86-91 and 112-117). -/
def responseOf {F : Type} (order : Order F) : OrderResponse F :=
  { OrderID := order.ID, OrderPrice := order.Price, OrderVAT := order.VAT,
    Items := order.Items }

/-! ## Service interface (`internal/services/service.go`) -/

structure OrderServiceInterface (σ F : Type) where
  CreateOrder : CreateOrderRequest F → σ → Except GoError (OrderResponse F) × σ
  GetOrder : Int → σ → Except GoError (OrderResponse F) × σ

/-- `*OrderService` as an implementation of `OrderServiceInterface`. -/
def OrderService.toInterface {σ F : Type} [Float64 F] (s : OrderService σ F) :
    OrderServiceInterface σ F :=
  { CreateOrder := s.CreateOrder, GetOrder := s.GetOrder }

/-- One call to a method of the order service, with its argument. -/
inductive ServiceCall (F : Type) where
  | CreateOrder (req : CreateOrderRequest F) : ServiceCall F
  | GetOrder (id : Int) : ServiceCall F
deriving DecidableEq

/-- Instrumentation, not part of the source: the service wrapped so that the
world also carries the list of the calls it received. -/
def OrderServiceInterface.recording {σ F : Type} (svc : OrderServiceInterface σ F) :
    OrderServiceInterface (σ × List (ServiceCall F)) F :=
  { CreateOrder := fun req w =>
      ((svc.CreateOrder req w.1).1,
        ((svc.CreateOrder req w.1).2, w.2 ++ [ServiceCall.CreateOrder req]))
    GetOrder := fun id w =>
      ((svc.GetOrder id w.1).1, ((svc.GetOrder id w.1).2, w.2 ++ [ServiceCall.GetOrder id])) }

/-! ## `strconv.ParseInt(s, 10, 64)` (Go standard library) -/

def ErrSyntax : GoError := .new "invalid syntax"

def ErrRange : GoError := .new "value out of range"

/-- The digit loop of `strconv.ParseUint(s, 10, 64)`: a byte that is not a
decimal digit is a syntax error, a value above `2^64 - 1` a range error. -/
def ParseUint.loop : List Char → Nat → Except GoError Nat
  | [], n => .ok n
  | c :: cs, n =>
    if !c.isDigit then .error ErrSyntax
    else if n ≥ (2 ^ 64 - 1) / 10 + 1 then .error ErrRange
    else if n * 10 + (c.toNat - 48) > 2 ^ 64 - 1 then .error ErrRange
    else ParseUint.loop cs (n * 10 + (c.toNat - 48))

/-- `strconv.ParseUint(s, 10, 64)`. -/
def ParseUint (s : List Char) : Except GoError Nat :=
  if s.isEmpty then .error ErrSyntax else ParseUint.loop s 0

/-- `strconv.ParseInt(s, 10, 64)`: an optional sign followed by one or more
decimal digits, the value lying in `[-2^63, 2^63 - 1]`.  The `*NumError`
around the cause is left out; the handler only tests `err != nil`. -/
def ParseInt (s : String) : Except GoError Int :=
  match s.data with
  | [] => .error ErrSyntax
  | c :: cs =>
    let neg := c == '-'
    let digits := if c == '+' || c == '-' then cs else c :: cs
    match ParseUint digits with
    | .error err => .error err
    | .ok un =>
      if !neg && un ≥ 2 ^ 63 then .error ErrRange
      else if neg && un > 2 ^ 63 then .error ErrRange
      else .ok (if neg then -(un : Int) else (un : Int))

/-! ## HTTP handler (`internal/api/handlers/order_handler.go`) -/

/-- What was written to the response body: nothing, the text of `http.Error`,
or the JSON encoding of a response (the bytes `encoding/json` produces for it
are not modelled, only whether it produces any). -/
inductive Body (F : Type) where
  | empty : Body F
  | text (s : String) : Body F
  | json (v : OrderResponse F) : Body F
deriving DecidableEq

/-- What `encoding/json` asks of a `float64` before writing it:
`math.IsInf(f, 0) || math.IsNaN(f)`, in which case it refuses the whole value
with an `UnsupportedValueError`. -/
class JSONFloat (F : Type) where
  isInfOrNaN : F → Bool

/-- Exact integers are never infinite or NaN. -/
instance exactIntJSON : JSONFloat Int where
  isInfOrNaN := fun _ => false

/-- Whether `encoding/json` can encode the response: none of its `float64`
fields (`order_price`, `order_vat`, and `price` and `vat` of every item) is
infinite or NaN.  The other fields are integers and a slice, which always
encode. -/
def OrderResponse.encodable {F : Type} [JSONFloat F] (response : OrderResponse F) : Bool :=
  !JSONFloat.isInfOrNaN response.OrderPrice && !JSONFloat.isInfOrNaN response.OrderVAT &&
    response.Items.all fun item =>
      !JSONFloat.isInfOrNaN item.Price && !JSONFloat.isInfOrNaN item.VAT

/-- `json.NewEncoder(w).Encode(response)`: the error returned and what is
written to the body.  The value is encoded into a buffer first, so on an
error nothing is written. -/
def jsonEncode {F : Type} [JSONFloat F] (response : OrderResponse F) :
    Option GoError × Body F :=
  if response.encodable then (none, .json response)
  else (some (.new "json: unsupported value"), .empty)

structure HttpResponse (F : Type) where
  status : Nat
  contentType : String
  body : Body F
deriving DecidableEq

def StatusOK : Nat := 200
def StatusCreated : Nat := 201
def StatusBadRequest : Nat := 400
def StatusNotFound : Nat := 404
def StatusInternalServerError : Nat := 500

/-- `http.Error(w, error, code)`: a plain-text response whose body is the
message followed by a newline. -/
def httpError {F : Type} (error : String) (code : Nat) : HttpResponse F :=
  { status := code, contentType := "text/plain; charset=utf-8", body := .text (error ++ "\n") }

/-- The body is text containing `substr`. -/
def Body.ContainsText {F : Type} : Body F → String → Prop
  | .text s, substr => Contains s substr
  | .json _, _ => False
  | .empty, _ => False

structure OrderHandler (σ F : Type) where
  orderService : OrderServiceInterface σ F

def NewOrderHandler {σ F : Type} (orderService : OrderServiceInterface σ F) : OrderHandler σ F :=
  { orderService := orderService }

/-- `OrderHandler.CreateOrder` (lines 35-60).  `decoded` is the outcome of
`json.NewDecoder(r.Body).Decode(&req)`: the error, or the request read.  On
success the status 201 is written first (line 58); the error of `Encode` is
discarded (line 59), so the body is whatever `Encode` wrote. -/
def OrderHandler.CreateOrder {σ F : Type} [JSONFloat F] (h : OrderHandler σ F)
    (decoded : Except GoError (CreateOrderRequest F)) (w : σ) : HttpResponse F × σ :=
  match decoded with
  | .error _ => (httpError "Invalid request body" StatusBadRequest, w)
  | .ok req =>
    if req.Order.Items.length = 0 then
      (httpError "Order must contain at least one item" StatusBadRequest, w)
    else
      match h.orderService.CreateOrder req w with
      | (.error err, w1) => (httpError err.Error StatusInternalServerError, w1)
      | (.ok response, w1) =>
        ({ status := StatusCreated, contentType := "application/json",
           body := (jsonEncode response).2 }, w1)

/-- `OrderHandler.GetOrder` (lines 72-91).  `idVar` is `mux.Vars(r)["id"]`.
On success no status is written explicitly, which leaves 200; the error of
`Encode` is discarded (line 90), so the body is whatever `Encode` wrote. -/
def OrderHandler.GetOrder {σ F : Type} [JSONFloat F] (h : OrderHandler σ F) (idVar : String)
    (w : σ) : HttpResponse F × σ :=
  match ParseInt idVar with
  | .error _ => (httpError "Invalid order ID" StatusBadRequest, w)
  | .ok id =>
    match h.orderService.GetOrder id w with
    | (.error err, w1) => (httpError err.Error StatusNotFound, w1)
    | (.ok response, w1) =>
      ({ status := StatusOK, contentType := "application/json",
         body := (jsonEncode response).2 }, w1)

/-- The handler wired to a service that records the calls it receives. -/
def OrderHandler.recording {σ F : Type} (h : OrderHandler σ F) :
    OrderHandler (σ × List (ServiceCall F)) F :=
  NewOrderHandler h.orderService.recording

/-- The service calls made by the handler's `CreateOrder`. -/
def OrderHandler.CreateOrderCalls {σ F : Type} [JSONFloat F] (h : OrderHandler σ F)
    (decoded : Except GoError (CreateOrderRequest F)) (w : σ) : List (ServiceCall F) :=
  (h.recording.CreateOrder decoded (w, [])).2.2

/-- The service calls made by the handler's `GetOrder`. -/
def OrderHandler.GetOrderCalls {σ F : Type} [JSONFloat F] (h : OrderHandler σ F)
    (idVar : String) (w : σ) : List (ServiceCall F) :=
  (h.recording.GetOrder idVar (w, [])).2.2

/-! ## Fixtures

Repositories in the manner of the mocks of `order_service_test.go`, over a
world without state and with exact integer arithmetic (prices and VAT in whole
units). -/

/-- Products 1 and 2 exist; every other identifier is reported as not found,
with the error of `ProductRepo.GetByID`. -/
def testProductRepo : ProductRepository Unit Int :=
  { GetByID := fun id w =>
      if id = 1 then (.ok { ID := 1, Name := "Product 1", Price := 10, VAT := 1 }, w)
      else if id = 2 then (.ok { ID := 2, Name := "Product 2", Price := 5, VAT := 2 }, w)
      else (.error (.new "product not found"), w) }

/-- A store whose `Create` returns its argument with identifier 1 and creation
time 7, and whose `GetByID` knows order 1 only. -/
def testOrderRepo : OrderRepository Unit Int :=
  { Create := fun order w => (.ok { order with ID := 1, CreatedAt := 7 }, w)
    GetByID := fun id w =>
      if id = 1 then
        (.ok { ID := 1, Price := 35, VAT := 8, CreatedAt := 7,
               Items := [{ ProductID := 1, Quantity := 2, Price := 20, VAT := 2 },
                         { ProductID := 2, Quantity := 3, Price := 15, VAT := 6 }] }, w)
      else (.error (.new "order not found"), w) }

/-- A store whose `Create` always fails. -/
def failingOrderRepo : OrderRepository Unit Int :=
  { Create := fun _ w => (.error (.new "connection refused"), w)
    GetByID := fun _ w => (.error (.new "connection refused"), w) }

def testService : OrderService Unit Int := NewOrderService testOrderRepo testProductRepo

def failingService : OrderService Unit Int := NewOrderService failingOrderRepo testProductRepo

def testHandler : OrderHandler Unit Int := NewOrderHandler testService.toInterface

/-- A request with the given `(product_id, quantity)` pairs. -/
def requestOf (items : List (Int × Int)) : CreateOrderRequest Int :=
  { Order := { Items := items.map fun pq =>
      { ProductID := pq.1, Quantity := pq.2, Price := 0, VAT := 0 } } }

/-- The request of "Successful order creation". -/
def testRequest : CreateOrderRequest Int := requestOf [(1, 2), (2, 3)]

/-- The request of "Product not found". -/
def unknownProductRequest : CreateOrderRequest Int := requestOf [(999, 1)]

/-- A request without items. -/
def emptyRequest : CreateOrderRequest Int := requestOf []

/-! ## Further vocabulary and fixtures -/

/-- Exact rational arithmetic as an interpretation of the `float64`
operations.  On the values of the scenario of `order_service_test.go` (10.0,
1.0, 5.0, 0.5 and small integers) binary floating point computes the same
products and sums, all of them being multiples of 1/2 of small size. -/
instance exactRat : Float64 Rat where
  zero := 0
  add := fun a b => a + b
  mul := fun a b => a * b
  ofInt := fun n => (n : Rat)

/-- What the caller supplies for an item: product identifier and quantity. -/
def OrderItem.key {F : Type} (item : OrderItem F) : Int × Int :=
  (item.ProductID, item.Quantity)

/-- The identifier asked for, when the recorded call is a product lookup. -/
def RepoCall.lookupID {F : Type} : RepoCall F → Option Int
  | .productGetByID id _ => some id
  | _ => none

/-- A product repository that answers from a catalogue, whatever the world. -/
def catalogueRepo {σ F : Type} (catalogue : Int → Except GoError (Product F)) :
    ProductRepository σ F :=
  { GetByID := fun id w => (catalogue id, w) }

/-- The identifiers of `items` in order, up to and including the first one
that is not in the catalogue. -/
def untilFirstFailure {F : Type} (catalogue : Int → Except GoError (Product F)) :
    List (OrderItem F) → List Int
  | [] => []
  | item :: rest =>
    match catalogue item.ProductID with
    | .error _ => [item.ProductID]
    | .ok _ => item.ProductID :: untilFirstFailure catalogue rest

/-- Every item of the list is in the catalogue. -/
def allFound {F : Type} (catalogue : Int → Except GoError (Product F))
    (items : List (OrderItem F)) : Bool :=
  items.all fun item =>
    match catalogue item.ProductID with
    | .error _ => false
    | .ok _ => true

/-- The products of "Successful order creation": product 1 at 10.0 with VAT
1.0, product 2 at 5.0 with VAT 0.5. -/
def scenarioProductRepo : ProductRepository Unit Rat :=
  { GetByID := fun id w =>
      if id = 1 then (.ok { ID := 1, Name := "Product 1", Price := 10, VAT := 1 }, w)
      else if id = 2 then (.ok { ID := 2, Name := "Product 2", Price := 5, VAT := 1 / 2 }, w)
      else (.error (.new "product not found"), w) }

def scenarioOrderRepo : OrderRepository Unit Rat :=
  { Create := fun order w => (.ok { order with ID := 1, CreatedAt := 7 }, w)
    GetByID := fun _ w => (.error (.new "order not found"), w) }

def scenarioService : OrderService Unit Rat :=
  NewOrderService scenarioOrderRepo scenarioProductRepo

/-- The items `[{product 1, qty 2}, {product 2, qty 3}]`. -/
def scenarioRequest : CreateOrderRequest Rat :=
  { Order := { Items := [{ ProductID := 1, Quantity := 2, Price := 0, VAT := 0 },
                         { ProductID := 2, Quantity := 3, Price := 0, VAT := 0 }] } }

/-- A request whose second item has quantity zero and whose third item has a
negative quantity. -/
def oddQuantitiesRequest : CreateOrderRequest Int := requestOf [(1, 2), (2, 0), (1, -3)]

/-- The request of "Successful order creation" with prices and VAT filled in
by the caller. -/
def forgedRequest : CreateOrderRequest Int :=
  { Order := { Items := [{ ProductID := 1, Quantity := 2, Price := 1, VAT := 0 },
                         { ProductID := 2, Quantity := 3, Price := -4, VAT := 99 }] } }

/-! ## Order store over SQL (`internal/repository/order_repo.go`)

`OrderRepo.Create` runs on `database/sql` over PostgreSQL, which are not part
of the repository.  They are modelled as far as `Create` uses them: the durable
state is the content of the tables `orders` and `order_items`; a transaction
collects the rows written through it, which become durable together at a
successful `Commit` and are dropped by `Rollback` or by a failed `Commit`
(the atomicity policy of section 4.2 of the specification).  Whether a
statement succeeds, and which identifier and timestamp the header insert
returns, is decided by the database: these answers are an input (`Answers`). -/

/-- A row of table `orders`. -/
structure OrdersRow (F : Type) where
  id : Int
  price : F
  vat : F
  created_at : Time
deriving DecidableEq, Repr

/-- A row of table `order_items`, without its own key. -/
structure OrderItemsRow (F : Type) where
  order_id : Int
  product_id : Int
  quantity : Int
  price : F
  vat : F
deriving DecidableEq, Repr

/-- The durable state: the rows of the two tables, in insertion order. -/
structure Database (F : Type) where
  orders : List (OrdersRow F)
  order_items : List (OrderItemsRow F)
deriving DecidableEq, Repr

/-- The answers of the database to the statements of one `Create`: the error
of `BeginTx`, if any; the error of the header insert or the `id` and
`created_at` it returns; the error, if any, of the insert of the item at each
index; the error of `Commit`, if any. -/
structure Answers where
  beginTx : Option GoError
  insertOrder : Except GoError (Int × Time)
  insertItem : Nat → Option GoError
  commit : Option GoError

/-- The error `sql.ErrTxDone`. -/
def ErrTxDone : GoError := .new "sql: transaction has already been committed or rolled back"

/-- A `*sql.Tx`: the durable state, the rows written through the transaction
and not yet durable, and whether the transaction was committed or rolled
back. -/
structure Tx (F : Type) where
  db : Database F
  orders : List (OrdersRow F)
  order_items : List (OrderItemsRow F)
  done : Bool
deriving DecidableEq, Repr

/-- `db.BeginTx(ctx, nil)`. -/
def BeginTx {F : Type} (answer : Option GoError) (db : Database F) : Except GoError (Tx F) :=
  match answer with
  | some err => .error err
  | none => .ok { db := db, orders := [], order_items := [], done := false }

/-- `tx.QueryRowContext(ctx, "INSERT INTO orders (price, vat, created_at)
VALUES ($1, $2, NOW()) RETURNING id, created_at", price, vat).Scan(...)`. -/
def Tx.insertOrder {F : Type} (tx : Tx F) (answer : Except GoError (Int × Time))
    (price vat : F) : Except GoError (Int × Time) × Tx F :=
  if tx.done then (.error ErrTxDone, tx)
  else
    match answer with
    | .error err => (.error err, tx)
    | .ok (id, createdAt) =>
      (.ok (id, createdAt),
        { tx with orders := tx.orders ++
            [{ id := id, price := price, vat := vat, created_at := createdAt }] })

/-- `tx.ExecContext(ctx, "INSERT INTO order_items (order_id, product_id,
quantity, price, vat) VALUES ($1, $2, $3, $4, $5)", ...)`. -/
def Tx.insertOrderItem {F : Type} (tx : Tx F) (answer : Option GoError)
    (row : OrderItemsRow F) : Option GoError × Tx F :=
  if tx.done then (some ErrTxDone, tx)
  else
    match answer with
    | some err => (some err, tx)
    | none => (none, { tx with order_items := tx.order_items ++ [row] })

/-- `tx.Commit()`: on success the rows written become durable, all at once; on
failure none does.  Either way the transaction is over. -/
def Tx.Commit {F : Type} (tx : Tx F) (answer : Option GoError) : Option GoError × Tx F :=
  if tx.done then (some ErrTxDone, tx)
  else
    match answer with
    | some err => (some err, { tx with orders := [], order_items := [], done := true })
    | none =>
      (none,
        { db := { orders := tx.db.orders ++ tx.orders,
                  order_items := tx.db.order_items ++ tx.order_items }
          orders := [], order_items := [], done := true })

/-- `tx.Rollback()`: drops the rows written; after `Commit` it does nothing
and returns `sql.ErrTxDone`. -/
def Tx.Rollback {F : Type} (tx : Tx F) : Option GoError × Tx F :=
  if tx.done then (some ErrTxDone, tx)
  else (none, { tx with orders := [], order_items := [], done := true })

/-- The `for i, item := range order.Items` loop of `OrderRepo.Create` (lines
63-85), from index `i` on.  The assignment `order.Items[i] = item` writes back
the copy just read and changes nothing. -/
def OrderRepo.Create.loop {F : Type} (answers : Nat → Option GoError) (orderID : Int) :
    Nat → List (OrderItem F) → Tx F → Option GoError × Tx F
  | _, [], tx => (none, tx)
  | i, item :: rest, tx =>
    match tx.insertOrderItem (answers i)
        { order_id := orderID, product_id := item.ProductID, quantity := item.Quantity,
          price := item.Price, vat := item.VAT } with
    | (some err, tx1) => (some err, tx1)
    | (none, tx1) => OrderRepo.Create.loop answers orderID (i + 1) rest tx1

/-- `OrderRepo.Create` (lines 37-93), returning the result and the durable
state it leaves.  `defer tx.Rollback()` runs on every return once the
transaction is open: it is applied to the transaction as the body leaves it.
On the error returns the caller's `order` keeps the `ID` and `CreatedAt`
scanned into it, but `nil` is returned. -/
def OrderRepo.Create {F : Type} (answers : Answers) (order : Order F) (db : Database F) :
    Except GoError (Order F) × Database F :=
  match BeginTx answers.beginTx db with
  | .error err => (.error err, db)
  | .ok tx =>
    let body : Except GoError (Order F) × Tx F :=
      match tx.insertOrder answers.insertOrder order.Price order.VAT with
      | (.error err, tx1) => (.error err, tx1)
      | (.ok (id, createdAt), tx1) =>
        match OrderRepo.Create.loop answers.insertItem id 0 order.Items tx1 with
        | (some err, tx2) => (.error err, tx2)
        | (none, tx2) =>
          match tx2.Commit answers.commit with
          | (some err, tx3) => (.error err, tx3)
          | (none, tx3) => (.ok { order with ID := id, CreatedAt := createdAt }, tx3)
    (body.1, body.2.Rollback.2.db)

/-- The row `Create` writes for an item of the order with identifier
`orderID`. -/
def itemRow {F : Type} (orderID : Int) (item : OrderItem F) : OrderItemsRow F :=
  { order_id := orderID, product_id := item.ProductID, quantity := item.Quantity,
    price := item.Price, vat := item.VAT }

/-- No statement fails for an order of `n` items. -/
def Answers.allSucceed (answers : Answers) (n : Nat) : Prop :=
  answers.beginTx = none ∧ (∃ id createdAt, answers.insertOrder = .ok (id, createdAt)) ∧
    (∀ i, i < n → answers.insertItem i = none) ∧ answers.commit = none

/-- A database holding one earlier order. -/
def testDatabase : Database Int :=
  { orders := [{ id := 41, price := 10, vat := 1, created_at := 3 }]
    order_items := [{ order_id := 41, product_id := 1, quantity := 1, price := 10, vat := 1 }] }

/-- The priced order of "Successful order creation", before it is stored. -/
def testDraftOrder : Order Int :=
  { ID := 0, Price := 35, VAT := 8, CreatedAt := 0,
    Items := [{ ProductID := 1, Quantity := 2, Price := 20, VAT := 2 },
              { ProductID := 2, Quantity := 3, Price := 15, VAT := 6 }] }

/-- Every statement succeeds; the header gets identifier 42 at time 7. -/
def answersOk : Answers :=
  { beginTx := none, insertOrder := .ok (42, 7), insertItem := fun _ => none, commit := none }

/-- The insert of the item at index 1 fails. -/
def answersItemFails : Answers :=
  { answersOk with
    insertItem := fun i => if i = 1 then some (.new "connection reset") else none }

/-- `Commit` fails. -/
def answersCommitFails : Answers :=
  { answersOk with commit := some (.new "connection reset") }

/-! ## `float64` with its special values

A fragment of binary64 in which the IEEE 754 rules for zeros, infinities and
NaN can be evaluated.  The finite values are the integers, with exact sums and
products (binary64 is exact on integers below 2^53 in magnitude); fractions,
rounding and overflow of finite values are outside the fragment. -/

/-- Exact rationals are never infinite or NaN. -/
instance exactRatJSON : JSONFloat Rat where
  isInfOrNaN := fun _ => false

/-- A `float64` value: an integer (`finite 0` is `+0`), `-0`, `+Inf`, `-Inf`
or NaN. -/
inductive Binary64 where
  | finite (n : Int) : Binary64
  | negZero : Binary64
  | posInf : Binary64
  | negInf : Binary64
  | nan : Binary64
deriving DecidableEq, Repr

/-- `math.IsNaN`. -/
def Binary64.isNaN : Binary64 → Bool
  | .nan => true
  | _ => false

/-- `math.IsInf(x, 0)`. -/
def Binary64.isInf : Binary64 → Bool
  | .posInf => true
  | .negInf => true
  | _ => false

/-- The value is `+0` or `-0`. -/
def Binary64.isZero : Binary64 → Bool
  | .finite n => n == 0
  | .negZero => true
  | _ => false

/-- The sign bit (`math.Signbit`), NaN taken as positive. -/
def Binary64.signbit : Binary64 → Bool
  | .finite n => decide (n < 0)
  | .negZero => true
  | .posInf => false
  | .negInf => true
  | .nan => false

/-- The integer a finite value stands for; `0` for the other values. -/
def Binary64.toInt : Binary64 → Int
  | .finite n => n
  | _ => 0

/-- The value is neither an infinity nor NaN. -/
def Binary64.isFinite (x : Binary64) : Bool := !x.isInf && !x.isNaN

/-- IEEE 754 multiplication: NaN is contagious, an infinity times a zero is
NaN, the sign of any other result is the exclusive or of the signs. -/
def Binary64.mul (a b : Binary64) : Binary64 :=
  if a.isNaN || b.isNaN then .nan
  else if (a.isInf && b.isZero) || (a.isZero && b.isInf) then .nan
  else if a.isInf || b.isInf then (if a.signbit != b.signbit then .negInf else .posInf)
  else if a.isZero || b.isZero then (if a.signbit != b.signbit then .negZero else .finite 0)
  else .finite (a.toInt * b.toInt)

/-- IEEE 754 addition, rounding to nearest: NaN is contagious, `+Inf + -Inf`
is NaN, an infinity absorbs anything else, `-0 + -0` is `-0`, and every other
sum that is zero is `+0`. -/
def Binary64.add (a b : Binary64) : Binary64 :=
  if a.isNaN || b.isNaN then .nan
  else if (a == .posInf && b == .negInf) || (a == .negInf && b == .posInf) then .nan
  else if a.isInf then a
  else if b.isInf then b
  else if a == .negZero && b == .negZero then .negZero
  else .finite (a.toInt + b.toInt)

instance binary64 : Float64 Binary64 where
  zero := .finite 0
  add := Binary64.add
  mul := Binary64.mul
  ofInt := .finite

instance binary64JSON : JSONFloat Binary64 where
  isInfOrNaN := fun x => x.isInf || x.isNaN

/-- A catalogue over `Binary64`: products 1 and 2 as in the tests (whole
units), product 3 with the unit price `+Inf` and product 4 with a negative
unit price. -/
def specialProductRepo : ProductRepository Unit Binary64 :=
  { GetByID := fun id w =>
      if id = 1 then
        (.ok { ID := 1, Name := "Product 1", Price := .finite 10, VAT := .finite 1 }, w)
      else if id = 2 then
        (.ok { ID := 2, Name := "Product 2", Price := .finite 5, VAT := .finite 2 }, w)
      else if id = 3 then
        (.ok { ID := 3, Name := "Product 3", Price := .posInf, VAT := .finite 1 }, w)
      else if id = 4 then
        (.ok { ID := 4, Name := "Product 4", Price := .finite (-5), VAT := .finite 1 }, w)
      else (.error (.new "product not found"), w) }

/-- A store over `Binary64` whose `Create` returns its argument with
identifier 1 and creation time 7, and which holds one order, number 1, whose
VAT is NaN. -/
def specialOrderRepo : OrderRepository Unit Binary64 :=
  { Create := fun order w => (.ok { order with ID := 1, CreatedAt := 7 }, w)
    GetByID := fun id w =>
      if id = 1 then
        (.ok { ID := 1, Price := .finite 20, VAT := .nan, CreatedAt := 7,
               Items := [{ ProductID := 1, Quantity := 2, Price := .finite 20, VAT := .nan }] },
          w)
      else (.error (.new "order not found"), w) }

def specialService : OrderService Unit Binary64 :=
  NewOrderService specialOrderRepo specialProductRepo

def specialHandler : OrderHandler Unit Binary64 := NewOrderHandler specialService.toInterface

/-- A request with the given `(product_id, quantity)` pairs, over `Binary64`. -/
def specialRequest (items : List (Int × Int)) : CreateOrderRequest Binary64 :=
  { Order := { Items := items.map fun pq =>
      { ProductID := pq.1, Quantity := pq.2, Price := .finite 0, VAT := .finite 0 } } }

/-! ## Lemmas on the pricing loop -/

theorem accumulate_cons {F : Type} [Float64 F] (unit : Product F → F) (acc : F)
    (item : OrderItem F) (rest : List (OrderItem F)) (p : Product F) (ps : List (Product F)) :
    accumulate unit acc (item :: rest) (p :: ps) =
      accumulate unit (Float64.add acc (Float64.mul (unit p) (Float64.ofInt item.Quantity)))
        rest ps := rfl

/-- The lookup error as `CreateOrder` wraps it at line 59. -/
theorem lookup_error_message (id : Int) (err : GoError) :
    (GoError.wrap ("product with ID " ++ fmtD id ++ " not found: " ++ err.Error) err).Error =
      "product with ID " ++ fmtD id ++ " not found: " ++ err.Error := rfl

theorem pricingLoop_cons_error {σ F : Type} [Float64 F] (s : OrderService σ F)
    (item : OrderItem F) (rest : List (OrderItem F)) (tp tv : F) (w w1 : σ) (err : GoError)
    (h : s.productRepo.GetByID item.ProductID w = (.error err, w1)) :
    s.pricingLoop (item :: rest) tp tv w =
      (.error (.wrap ("product with ID " ++ fmtD item.ProductID ++ " not found: "
        ++ err.Error) err), w1) := by
  simp [OrderService.pricingLoop, h]

theorem pricingLoop_cons_ok {σ F : Type} [Float64 F] (s : OrderService σ F)
    (item : OrderItem F) (rest : List (OrderItem F)) (tp tv : F) (w w1 : σ) (p : Product F)
    (h : s.productRepo.GetByID item.ProductID w = (.ok p, w1)) :
    s.pricingLoop (item :: rest) tp tv w =
      match s.pricingLoop rest
          (Float64.add tp (Float64.mul p.Price (Float64.ofInt item.Quantity)))
          (Float64.add tv (Float64.mul p.VAT (Float64.ofInt item.Quantity))) w1 with
      | (.error e, w2) => (.error e, w2)
      | (.ok (items, tp1, tv1), w2) => (.ok (pricedItem item p :: items, tp1, tv1), w2) := by
  simp [OrderService.pricingLoop, h, pricedItem]

theorem recording_productGetByID {σ F : Type} (s : OrderService σ F) (id : Int) (w : σ)
    (log : List (RepoCall F)) (r : Except GoError (Product F)) (w1 : σ)
    (h : s.productRepo.GetByID id w = (r, w1)) :
    s.recording.productRepo.GetByID id (w, log) =
      (r, (w1, log ++ [RepoCall.productGetByID id r])) := by
  simp [OrderService.recording, NewOrderService, ProductRepository.recording, h]

/-- The loop on recording repositories: either every item is looked up with
success, or the items up to some item are and the lookup of that item fails,
which ends the loop.  The plain run has the same outcome. -/
theorem pricingLoop_recording {σ F : Type} [Float64 F] (s : OrderService σ F) :
    ∀ (items : List (OrderItem F)) (tp tv : F) (w : σ) (log : List (RepoCall F)),
      (∃ products w1, products.length = items.length ∧
        s.recording.pricingLoop items tp tv (w, log) =
          (.ok (List.zipWith pricedItem items products,
            accumulate Product.Price tp items products,
            accumulate Product.VAT tv items products),
           (w1, log ++ lookupsOk items products)) ∧
        s.pricingLoop items tp tv w =
          (.ok (List.zipWith pricedItem items products,
            accumulate Product.Price tp items products,
            accumulate Product.VAT tv items products), w1)) ∨
      (∃ pre item post products err w1,
        items = pre ++ item :: post ∧ products.length = pre.length ∧
        s.recording.pricingLoop items tp tv (w, log) =
          (.error (.wrap ("product with ID " ++ fmtD item.ProductID ++ " not found: "
              ++ err.Error) err),
           (w1, log ++ (lookupsOk pre products ++
              [RepoCall.productGetByID item.ProductID (.error err)]))) ∧
        s.pricingLoop items tp tv w =
          (.error (.wrap ("product with ID " ++ fmtD item.ProductID ++ " not found: "
              ++ err.Error) err), w1)) := by
  intro items
  induction items with
  | nil =>
    intro tp tv w log
    left
    exact ⟨[], w, rfl, by simp [OrderService.pricingLoop, lookupsOk, accumulate],
      by simp [OrderService.pricingLoop, accumulate]⟩
  | cons item rest ih =>
    intro tp tv w log
    rcases h : s.productRepo.GetByID item.ProductID w with ⟨r, w1⟩
    have hr := recording_productGetByID s item.ProductID w log r w1 h
    cases r with
    | error err =>
      right
      refine ⟨[], item, rest, [], err, w1, rfl, rfl, ?_, ?_⟩
      · rw [pricingLoop_cons_error s.recording item rest tp tv _ _ err hr]
        simp [lookupsOk]
      · rw [pricingLoop_cons_error s item rest tp tv _ _ err h]
    | ok p =>
      rw [pricingLoop_cons_ok s.recording item rest tp tv _ _ p hr,
        pricingLoop_cons_ok s item rest tp tv _ _ p h]
      rcases ih (Float64.add tp (Float64.mul p.Price (Float64.ofInt item.Quantity)))
          (Float64.add tv (Float64.mul p.VAT (Float64.ofInt item.Quantity))) w1
          (log ++ [RepoCall.productGetByID item.ProductID (.ok p)]) with
        ⟨ps, w2, hlen, hrec, hplain⟩ | ⟨pre, it, post, ps, err, w2, hsplit, hlen, hrec, hplain⟩
      · left
        refine ⟨p :: ps, w2, by simp [hlen], ?_, ?_⟩
        · rw [hrec]; simp [lookupsOk, accumulate_cons]
        · rw [hplain]; simp [accumulate_cons]
      · right
        refine ⟨item :: pre, it, post, p :: ps, err, w2, by simp [hsplit], by simp [hlen],
          ?_, ?_⟩
        · rw [hrec]; simp [lookupsOk]
        · rw [hplain]

theorem recording_orderCreate {σ F : Type} (s : OrderService σ F) (order : Order F) (w : σ)
    (log : List (RepoCall F)) :
    s.recording.orderRepo.Create order (w, log) =
      ((s.orderRepo.Create order w).1,
        ((s.orderRepo.Create order w).2,
          log ++ [RepoCall.orderCreate order (s.orderRepo.Create order w).1])) := rfl

/-- `CreateOrder` after a pricing loop that failed. -/
theorem createOrder_of_loop_error {σ F : Type} [Float64 F] (s : OrderService σ F)
    (req : CreateOrderRequest F) (w w1 : σ) (e : GoError)
    (h : s.pricingLoop req.Order.Items Float64.zero Float64.zero w = (.error e, w1)) :
    s.CreateOrder req w = (.error e, w1) := by
  simp [OrderService.CreateOrder, h]

/-- `CreateOrder` after a pricing loop that succeeded. -/
theorem createOrder_of_loop_ok {σ F : Type} [Float64 F] (s : OrderService σ F)
    (req : CreateOrderRequest F) (w w1 : σ) (items : List (OrderItem F)) (tp tv : F)
    (h : s.pricingLoop req.Order.Items Float64.zero Float64.zero w =
      (.ok (items, tp, tv), w1)) :
    s.CreateOrder req w =
      match s.orderRepo.Create
          { ID := 0, Items := items, Price := tp, VAT := tv, CreatedAt := 0 } w1 with
      | (.error err, w2) => (.error (.wrap ("failed to create order: " ++ err.Error) err), w2)
      | (.ok createdOrder, w2) => (.ok (responseOf createdOrder), w2) := by
  simp [OrderService.CreateOrder, h, responseOf]

/-- The two ways a call of `CreateOrder` can go.  Either every item is looked
up with success and `Create` is called once, with the priced order, its
outcome deciding the result; or the lookup of some item fails after the
lookups of the items before it succeeded, and nothing more is called. -/
theorem createOrder_run {σ F : Type} [Float64 F] (s : OrderService σ F)
    (req : CreateOrderRequest F) (w : σ) :
    (∃ products w1, products.length = req.Order.Items.length ∧
      s.CreateOrderCalls req w =
        lookupsOk req.Order.Items products ++
          [RepoCall.orderCreate (pricedOrder req.Order.Items products)
            (s.orderRepo.Create (pricedOrder req.Order.Items products) w1).1] ∧
      (s.CreateOrder req w).1 =
        match (s.orderRepo.Create (pricedOrder req.Order.Items products) w1).1 with
        | .error err => .error (.wrap ("failed to create order: " ++ err.Error) err)
        | .ok createdOrder => .ok (responseOf createdOrder)) ∨
    (∃ pre item post products err,
      req.Order.Items = pre ++ item :: post ∧ products.length = pre.length ∧
      s.CreateOrderCalls req w =
        lookupsOk pre products ++ [RepoCall.productGetByID item.ProductID (.error err)] ∧
      (s.CreateOrder req w).1 =
        .error (.wrap ("product with ID " ++ fmtD item.ProductID ++ " not found: "
          ++ err.Error) err)) := by
  rcases pricingLoop_recording s req.Order.Items Float64.zero Float64.zero w [] with
    ⟨ps, w1, hlen, hrec, hplain⟩ | ⟨pre, it, post, ps, err, w1, hsplit, hlen, hrec, hplain⟩
  · left
    refine ⟨ps, w1, hlen, ?_, ?_⟩
    · unfold OrderService.CreateOrderCalls
      rw [createOrder_of_loop_ok s.recording req _ _ _ _ _ hrec, recording_orderCreate]
      rcases hc : (s.orderRepo.Create
          { ID := 0, Items := List.zipWith pricedItem req.Order.Items ps,
            Price := accumulate Product.Price Float64.zero req.Order.Items ps,
            VAT := accumulate Product.VAT Float64.zero req.Order.Items ps,
            CreatedAt := 0 } w1) with ⟨r, w2⟩
      cases r <;> simp [pricedOrder, sumLines, hc]
    · rw [createOrder_of_loop_ok s req _ _ _ _ _ hplain]
      rcases hc : (s.orderRepo.Create
          { ID := 0, Items := List.zipWith pricedItem req.Order.Items ps,
            Price := accumulate Product.Price Float64.zero req.Order.Items ps,
            VAT := accumulate Product.VAT Float64.zero req.Order.Items ps,
            CreatedAt := 0 } w1) with ⟨r, w2⟩
      cases r <;> simp [pricedOrder, sumLines, hc]
  · right
    refine ⟨pre, it, post, ps, err, hsplit, hlen, ?_, ?_⟩
    · unfold OrderService.CreateOrderCalls
      rw [createOrder_of_loop_error s.recording req _ _ _ hrec]
      simp
    · rw [createOrder_of_loop_error s req _ _ _ hplain]

/-! ## Lemmas on recorded calls and on messages -/

theorem mem_lookupsOk {F : Type} (c : RepoCall F) :
    ∀ (items : List (OrderItem F)) (products : List (Product F)),
      c ∈ lookupsOk items products → ∃ id p, c = RepoCall.productGetByID id (.ok p) := by
  intro items
  induction items with
  | nil => intro products h; simp [lookupsOk] at h
  | cons item rest ih =>
    intro products h
    cases products with
    | nil => simp [lookupsOk] at h
    | cons p ps =>
      simp only [lookupsOk, List.zipWith_cons_cons, List.mem_cons] at h
      rcases h with h | h
      · exact ⟨item.ProductID, p, h⟩
      · exact ih ps h

theorem filter_isOrderCreate_lookupsOk {F : Type} (items : List (OrderItem F))
    (products : List (Product F)) :
    (lookupsOk items products).filter RepoCall.isOrderCreate = [] := by
  rw [List.filter_eq_nil_iff]
  intro c hc
  obtain ⟨id, p, rfl⟩ := mem_lookupsOk c items products hc
  simp [RepoCall.isOrderCreate]

theorem contains_append_right (a b : String) : Contains (a ++ b) b :=
  ⟨a.data, [], by simp⟩

theorem contains_append_left (a b : String) : Contains (a ++ b) a :=
  ⟨[], b.data, by simp⟩

/-- A failed lookup among the calls of `CreateOrder` is the last call: the
items before the one looked up were looked up with success, and the result is
the error of line 59 for that item. -/
theorem createOrder_failed_lookup {σ F : Type} [Float64 F] (s : OrderService σ F)
    (req : CreateOrderRequest F) (w : σ) (id : Int) (err : GoError)
    (hfail : RepoCall.productGetByID id (.error err) ∈ s.CreateOrderCalls req w) :
    ∃ pre item post products,
      req.Order.Items = pre ++ item :: post ∧ item.ProductID = id ∧
      products.length = pre.length ∧
      s.CreateOrderCalls req w =
        lookupsOk pre products ++ [RepoCall.productGetByID id (.error err)] ∧
      (s.CreateOrder req w).1 =
        .error (.wrap ("product with ID " ++ fmtD id ++ " not found: " ++ err.Error) err) := by
  rcases createOrder_run s req w with
    ⟨ps, w1, _, hcalls, _⟩ | ⟨pre, it, post, ps, err1, hsplit, hlen, hcalls, hres⟩
  · rw [hcalls, List.mem_append] at hfail
    rcases hfail with h | h
    · obtain ⟨_, _, h1⟩ := mem_lookupsOk _ _ _ h
      simp at h1
    · simp at h
  · have hlast : id = it.ProductID ∧ err = err1 := by
      rw [hcalls, List.mem_append] at hfail
      rcases hfail with h | h
      · obtain ⟨_, _, h1⟩ := mem_lookupsOk _ _ _ h
        simp at h1
      · simpa using h
    obtain ⟨rfl, rfl⟩ := hlast
    exact ⟨pre, it, post, ps, hsplit, rfl, hlen, hcalls, hres⟩

/-! ## Order service: claims -/

/-- C1: when every product lookup made by `CreateOrder` returns a product and
`Create` returns the order it was given, changed in `ID` and `CreatedAt` only,
then one lookup per item was made, in request order, followed by `Create` on
the priced order, and the response returned has `order_price` equal to the
sum over the items, in request order, of `product.price * quantity` and
`order_vat` equal to the sum of `product.vat * quantity`, `product` being what
the lookup for the item returned. -/
theorem createOrder_totals {σ F : Type} [Float64 F] (s : OrderService σ F)
    (req : CreateOrderRequest F) (w : σ)
    (_hitems : req.Order.Items ≠ [])
    (hlookups : ∀ c ∈ s.CreateOrderCalls req w, c.lookupSucceeded)
    (hcreate : ∀ c ∈ s.CreateOrderCalls req w, c.createEnriches) :
    ∃ products created response,
      products.length = req.Order.Items.length ∧
      s.CreateOrderCalls req w =
        lookupsOk req.Order.Items products ++
          [RepoCall.orderCreate (pricedOrder req.Order.Items products) (.ok created)] ∧
      (s.CreateOrder req w).1 = .ok response ∧
      response.OrderPrice = sumLines Product.Price req.Order.Items products ∧
      response.OrderVAT = sumLines Product.VAT req.Order.Items products := by
  rcases createOrder_run s req w with
    ⟨ps, w1, hlen, hcalls, hres⟩ | ⟨pre, it, post, ps, err, _, _, hcalls, _⟩
  · have hc := hcreate (RepoCall.orderCreate (pricedOrder req.Order.Items ps)
        (s.orderRepo.Create (pricedOrder req.Order.Items ps) w1).1) (by simp [hcalls])
    cases hr : (s.orderRepo.Create (pricedOrder req.Order.Items ps) w1).1 with
    | error e => simp [hr, RepoCall.createEnriches] at hc
    | ok created =>
      rw [hr] at hc hcalls hres
      simp only [RepoCall.createEnriches] at hc
      refine ⟨ps, created, responseOf created, hlen, hcalls, hres, ?_, ?_⟩
      · simp [responseOf, hc.2.1, pricedOrder]
      · simp [responseOf, hc.2.2, pricedOrder]
  · have hc := hlookups (RepoCall.productGetByID it.ProductID (.error err)) (by simp [hcalls])
    simp [RepoCall.lookupSucceeded] at hc

/-- C1, on the request of "Successful order creation": products 1 and 2 are
found and `Create` returns the order with identifier 1. -/
theorem createOrder_totals_witness :
    (testRequest.Order.Items ≠ [] ∧
      (∀ c ∈ testService.CreateOrderCalls testRequest (), c.lookupSucceeded) ∧
      (∀ c ∈ testService.CreateOrderCalls testRequest (), c.createEnriches)) ∧
    ∃ products created response,
      products.length = testRequest.Order.Items.length ∧
      testService.CreateOrderCalls testRequest () =
        lookupsOk testRequest.Order.Items products ++
          [RepoCall.orderCreate (pricedOrder testRequest.Order.Items products) (.ok created)] ∧
      (testService.CreateOrder testRequest ()).1 = .ok response ∧
      response.OrderPrice = sumLines Product.Price testRequest.Order.Items products ∧
      response.OrderVAT = sumLines Product.VAT testRequest.Order.Items products :=
  ⟨by decide, createOrder_totals testService testRequest () (by decide) (by decide)
    (by decide)⟩

/-- C2, as stated, fails: on a request without items `CreateOrder` calls
`Create`, with an order without items and with zero totals, and returns the
response built from the created order instead of an error. -/
theorem createOrder_empty_counterexample :
    emptyRequest.Order.Items = [] ∧
    (testService.CreateOrder emptyRequest ()).1 =
      .ok { OrderID := 1, OrderPrice := 0, OrderVAT := 0, Items := [] } ∧
    testService.CreateOrderCalls emptyRequest () =
      [RepoCall.orderCreate
        ({ ID := 0, Items := [], Price := 0, VAT := 0, CreatedAt := 0 } : Order Int)
        (.ok { ID := 1, Items := [], Price := 0, VAT := 0, CreatedAt := 7 })] := by
  decide

/-- C2, amended: on a request without items `CreateOrder` makes no product
lookup; it calls `Create` once, with an order that has no items and zero
totals, and returns the response built from the created order, or the error
of `Create` behind the prefix "failed to create order: ". -/
theorem createOrder_empty {σ F : Type} [Float64 F] (s : OrderService σ F)
    (req : CreateOrderRequest F) (w : σ) (hempty : req.Order.Items = []) :
    s.CreateOrderCalls req w =
      [RepoCall.orderCreate
        { ID := 0, Items := [], Price := Float64.zero, VAT := Float64.zero, CreatedAt := 0 }
        (s.orderRepo.Create
          { ID := 0, Items := [], Price := Float64.zero, VAT := Float64.zero, CreatedAt := 0 }
          w).1] ∧
    (s.CreateOrder req w).1 =
      match (s.orderRepo.Create
          { ID := 0, Items := [], Price := Float64.zero, VAT := Float64.zero, CreatedAt := 0 }
          w).1 with
      | .error err => .error (.wrap ("failed to create order: " ++ err.Error) err)
      | .ok created =>
        .ok { OrderID := created.ID, OrderPrice := created.Price, OrderVAT := created.VAT,
              Items := created.Items } := by
  have hrec : s.recording.pricingLoop req.Order.Items Float64.zero Float64.zero (w, []) =
      (.ok ([], Float64.zero, Float64.zero), (w, [])) := by rw [hempty]; rfl
  have hplain : s.pricingLoop req.Order.Items Float64.zero Float64.zero w =
      (.ok ([], Float64.zero, Float64.zero), w) := by rw [hempty]; rfl
  unfold OrderService.CreateOrderCalls
  rw [createOrder_of_loop_ok s.recording req _ _ _ _ _ hrec,
    createOrder_of_loop_ok s req _ _ _ _ _ hplain, recording_orderCreate]
  rcases hc : s.orderRepo.Create
      { ID := 0, Items := [], Price := Float64.zero, VAT := Float64.zero, CreatedAt := 0 } w with
    ⟨r, w2⟩
  cases r <;> simp [responseOf]

/-- C2 amended, on the request without items. -/
theorem createOrder_empty_witness :
    emptyRequest.Order.Items = [] ∧
    testService.CreateOrderCalls emptyRequest () =
      [RepoCall.orderCreate
        ({ ID := 0, Items := [], Price := 0, VAT := 0, CreatedAt := 0 } : Order Int)
        (.ok { ID := 1, Items := [], Price := 0, VAT := 0, CreatedAt := 7 })] :=
  ⟨by decide, (createOrder_empty testService emptyRequest () (by decide)).1⟩

/-- C3: when a product lookup made by `CreateOrder` returns an error, the
call returns no response and an error whose message contains the message of
the lookup's error, and `Create` is not among the calls made. -/
theorem createOrder_lookup_error {σ F : Type} [Float64 F] (s : OrderService σ F)
    (req : CreateOrderRequest F) (w : σ) (id : Int) (err : GoError)
    (hfail : RepoCall.productGetByID id (.error err) ∈ s.CreateOrderCalls req w) :
    (∃ e, (s.CreateOrder req w).1 = .error e ∧ Contains e.Error err.Error) ∧
    ∀ c ∈ s.CreateOrderCalls req w, c.isOrderCreate = false := by
  obtain ⟨pre, it, post, ps, _, _, _, hcalls, hres⟩ :=
    createOrder_failed_lookup s req w id err hfail
  refine ⟨⟨_, hres, ?_⟩, ?_⟩
  · rw [lookup_error_message]
    exact contains_append_right _ _
  · intro c hc
    rw [hcalls, List.mem_append] at hc
    rcases hc with h | h
    · obtain ⟨_, _, rfl⟩ := mem_lookupsOk _ _ _ h
      rfl
    · rw [List.mem_singleton] at h
      rw [h]
      rfl

/-- C3, on the request of "Product not found". -/
theorem createOrder_lookup_error_witness :
    RepoCall.productGetByID 999 (.error (.new "product not found")) ∈
        testService.CreateOrderCalls unknownProductRequest () ∧
      (∃ e, (testService.CreateOrder unknownProductRequest ()).1 = .error e ∧
        Contains e.Error (GoError.new "product not found").Error) ∧
      ∀ c ∈ testService.CreateOrderCalls unknownProductRequest (), c.isOrderCreate = false :=
  ⟨by decide, createOrder_lookup_error testService unknownProductRequest () 999
    (.new "product not found") (by decide)⟩

/-- C4, as stated, fails: for the unknown product 999 the message of the error
returned is "product with ID 999 not found: product not found", which is not
"product 999 not found". -/
theorem createOrder_notFound_message_counterexample :
    RepoCall.productGetByID 999 (.error (.new "product not found")) ∈
        testService.CreateOrderCalls unknownProductRequest () ∧
      (testService.CreateOrder unknownProductRequest ()).1 =
        .error (.wrap "product with ID 999 not found: product not found"
          (.new "product not found")) ∧
      (GoError.wrap "product with ID 999 not found: product not found"
          (.new "product not found")).Error ≠ "product 999 not found" := by
  decide

/-- C4, amended: when a product lookup made by `CreateOrder` returns an error
`err` for identifier `id`, that lookup is for the first item of the request
whose lookup failed (the lookups of the items before it returned products and
no call follows it), and the error returned has the message
"product with ID <id> not found: " followed by the message of `err`. -/
theorem createOrder_lookup_error_message {σ F : Type} [Float64 F] (s : OrderService σ F)
    (req : CreateOrderRequest F) (w : σ) (id : Int) (err : GoError)
    (hfail : RepoCall.productGetByID id (.error err) ∈ s.CreateOrderCalls req w) :
    (∃ pre item post products,
      req.Order.Items = pre ++ item :: post ∧ item.ProductID = id ∧
      products.length = pre.length ∧
      s.CreateOrderCalls req w =
        lookupsOk pre products ++ [RepoCall.productGetByID id (.error err)]) ∧
    ∃ e, (s.CreateOrder req w).1 = .error e ∧
      e.Error = "product with ID " ++ fmtD id ++ " not found: " ++ err.Error := by
  obtain ⟨pre, it, post, ps, hsplit, hid, hlen, hcalls, hres⟩ :=
    createOrder_failed_lookup s req w id err hfail
  exact ⟨⟨pre, it, post, ps, hsplit, hid, hlen, hcalls⟩, _, hres, rfl⟩

/-- C4 amended, on the request of "Product not found". -/
theorem createOrder_lookup_error_message_witness :
    RepoCall.productGetByID 999 (.error (.new "product not found")) ∈
        testService.CreateOrderCalls unknownProductRequest () ∧
      ∃ e, (testService.CreateOrder unknownProductRequest ()).1 = .error e ∧
        e.Error = "product with ID " ++ fmtD 999 ++ " not found: " ++
          (GoError.new "product not found").Error :=
  ⟨by decide, (createOrder_lookup_error_message testService unknownProductRequest () 999
    (.new "product not found") (by decide)).2⟩

/-- C5: when every product lookup made by `CreateOrder` returns a product and
`Create` returns the error `e`, the call returns no response and an error that
wraps `e`, with message "failed to create order: " followed by the message of
`e`, and `Create` is called exactly once. -/
theorem createOrder_store_error {σ F : Type} [Float64 F] (s : OrderService σ F)
    (req : CreateOrderRequest F) (w : σ) (e : GoError)
    (hlookups : ∀ c ∈ s.CreateOrderCalls req w, c.lookupSucceeded)
    (hcreate : ∀ c ∈ s.CreateOrderCalls req w, c.createFailsWith e) :
    (∃ err, (s.CreateOrder req w).1 = .error err ∧
      err.Error = "failed to create order: " ++ e.Error ∧ err.Unwrap = some e) ∧
    ((s.CreateOrderCalls req w).filter RepoCall.isOrderCreate).length = 1 := by
  rcases createOrder_run s req w with
    ⟨ps, w1, _, hcalls, hres⟩ | ⟨pre, it, post, ps, err, _, _, hcalls, _⟩
  · have hc := hcreate (RepoCall.orderCreate (pricedOrder req.Order.Items ps)
        (s.orderRepo.Create (pricedOrder req.Order.Items ps) w1).1) (by simp [hcalls])
    simp only [RepoCall.createFailsWith] at hc
    rw [hc] at hres
    refine ⟨⟨_, hres, rfl, rfl⟩, ?_⟩
    rw [hcalls, List.filter_append, filter_isOrderCreate_lookupsOk]
    simp [RepoCall.isOrderCreate]
  · have hc := hlookups (RepoCall.productGetByID it.ProductID (.error err)) (by simp [hcalls])
    simp [RepoCall.lookupSucceeded] at hc

/-- C5, on the request of "Successful order creation" sent to a service whose
store refuses every `Create`. -/
theorem createOrder_store_error_witness :
    ((∀ c ∈ failingService.CreateOrderCalls testRequest (), c.lookupSucceeded) ∧
      (∀ c ∈ failingService.CreateOrderCalls testRequest (),
        c.createFailsWith (.new "connection refused"))) ∧
    (∃ err, (failingService.CreateOrder testRequest ()).1 = .error err ∧
      err.Error = "failed to create order: " ++ (GoError.new "connection refused").Error ∧
      err.Unwrap = some (.new "connection refused")) ∧
    ((failingService.CreateOrderCalls testRequest ()).filter RepoCall.isOrderCreate).length
      = 1 :=
  ⟨by decide, createOrder_store_error failingService testRequest () (.new "connection refused")
    (by decide) (by decide)⟩

/-- C6: `GetOrder id` makes one repository call, `GetByID id` on the order
store, and none to the product repository; an error of the store is returned
as it is, and an order found is returned as a response with the same
identifier, totals and items. -/
theorem getOrder_delegates {σ F : Type} (s : OrderService σ F) (id : Int) (w : σ) :
    s.GetOrderCalls id w = [RepoCall.orderGetByID id (s.orderRepo.GetByID id w).1] ∧
    (s.GetOrder id w).1 =
      match (s.orderRepo.GetByID id w).1 with
      | .error err => .error err
      | .ok order =>
        .ok { OrderID := order.ID, OrderPrice := order.Price, OrderVAT := order.VAT,
              Items := order.Items } := by
  have hrec : s.recording.orderRepo.GetByID id (w, []) =
      ((s.orderRepo.GetByID id w).1,
        ((s.orderRepo.GetByID id w).2,
          [RepoCall.orderGetByID id (s.orderRepo.GetByID id w).1])) := rfl
  unfold OrderService.GetOrderCalls
  simp only [OrderService.GetOrder, hrec]
  rcases hc : s.orderRepo.GetByID id w with ⟨r, w1⟩
  cases r <;> simp

/-! ## HTTP handler: claims -/

theorem containsText_httpError {F : Type} (msg : String) (code : Nat) :
    (httpError msg code : HttpResponse F).body.ContainsText msg :=
  contains_append_left msg "\n"

/-- C7, as stated, fails: a request for the unknown product 999 is answered
with status 500, not 400. -/
theorem handler_createOrder_unknown_product_counterexample :
    unknownProductRequest.Order.Items ≠ [] ∧
    (testService.CreateOrder unknownProductRequest ()).1 =
      .error (.wrap "product with ID 999 not found: product not found"
        (.new "product not found")) ∧
    (testHandler.CreateOrder (.ok unknownProductRequest) ()).1 =
      { status := 500, contentType := "text/plain; charset=utf-8",
        body := .text "product with ID 999 not found: product not found\n" } := by
  decide

/-- C7, amended: for a decoded request with at least one item, handled by
`OrderHandler.CreateOrder` over `OrderService`, when a product lookup returns
an error `err` for identifier `id`, the response has status 500 and the
plain-text body "product with ID <id> not found: " followed by the message of
`err`. -/
theorem handler_createOrder_unknown_product {σ F : Type} [Float64 F] [JSONFloat F]
    (s : OrderService σ F) (req : CreateOrderRequest F) (w : σ) (id : Int) (err : GoError)
    (hitems : req.Order.Items ≠ [])
    (hfail : RepoCall.productGetByID id (.error err) ∈ s.CreateOrderCalls req w) :
    ((NewOrderHandler s.toInterface).CreateOrder (.ok req) w).1.status = 500 ∧
    ((NewOrderHandler s.toInterface).CreateOrder (.ok req) w).1 =
      httpError ("product with ID " ++ fmtD id ++ " not found: " ++ err.Error)
        StatusInternalServerError := by
  obtain ⟨_, _, _, _, _, _, _, _, hres⟩ := createOrder_failed_lookup s req w id err hfail
  have hlen : ¬ req.Order.Items.length = 0 := by
    intro h; exact hitems (List.length_eq_zero.mp h)
  rcases hc : s.CreateOrder req w with ⟨r, w1⟩
  rw [hc] at hres
  simp only at hres
  subst hres
  simp [OrderHandler.CreateOrder, NewOrderHandler, OrderService.toInterface, hlen, hc,
    httpError, StatusInternalServerError, GoError.Error]

/-- C7 amended, on the request of "Product not found". -/
theorem handler_createOrder_unknown_product_witness :
    (unknownProductRequest.Order.Items ≠ [] ∧
      RepoCall.productGetByID 999 (.error (.new "product not found")) ∈
        testService.CreateOrderCalls unknownProductRequest ()) ∧
    ((NewOrderHandler testService.toInterface).CreateOrder (.ok unknownProductRequest) ()).1.status
      = 500 :=
  ⟨by decide, (handler_createOrder_unknown_product testService unknownProductRequest () 999
    (.new "product not found") (by decide) (by decide)).1⟩

/-- C8: a decoded request without items is answered with status 400 and the
text "Order must contain at least one item", which contains
"must contain at least one item"; the order service is not called. -/
theorem handler_createOrder_empty {σ F : Type} [JSONFloat F] (h : OrderHandler σ F)
    (req : CreateOrderRequest F) (w : σ) (hempty : req.Order.Items = []) :
    (h.CreateOrder (.ok req) w).1.status = 400 ∧
    (h.CreateOrder (.ok req) w).1.body = .text "Order must contain at least one item\n" ∧
    (h.CreateOrder (.ok req) w).1.body.ContainsText "must contain at least one item" ∧
    h.CreateOrderCalls (.ok req) w = [] := by
  have hresp : ∀ {τ : Type} (g : OrderHandler τ F) (v : τ),
      g.CreateOrder (.ok req) v =
        (httpError "Order must contain at least one item" StatusBadRequest, v) := by
    intro τ g v
    simp [OrderHandler.CreateOrder, hempty]
  refine ⟨?_, ?_, ?_, ?_⟩
  · rw [hresp]; rfl
  · rw [hresp]; rfl
  · rw [hresp]
    show Contains "Order must contain at least one item\n" "must contain at least one item"
    decide
  · unfold OrderHandler.CreateOrderCalls
    rw [hresp]

/-- C8, on the request without items. -/
theorem handler_createOrder_empty_witness :
    emptyRequest.Order.Items = [] ∧
    (testHandler.CreateOrder (.ok emptyRequest) ()).1.status = 400 ∧
    (testHandler.CreateOrder (.ok emptyRequest) ()).1.body =
      .text "Order must contain at least one item\n" ∧
    (testHandler.CreateOrder (.ok emptyRequest) ()).1.body.ContainsText
      "must contain at least one item" ∧
    testHandler.CreateOrderCalls (.ok emptyRequest) () = [] :=
  ⟨by decide, handler_createOrder_empty testHandler emptyRequest () (by decide)⟩

theorem handler_recording_createOrder {σ F : Type} (h : OrderHandler σ F)
    (req : CreateOrderRequest F) (w : σ) (log : List (ServiceCall F)) :
    h.recording.orderService.CreateOrder req (w, log) =
      ((h.orderService.CreateOrder req w).1,
        ((h.orderService.CreateOrder req w).2, log ++ [ServiceCall.CreateOrder req])) := rfl

theorem handler_recording_getOrder {σ F : Type} (h : OrderHandler σ F) (id : Int) (w : σ)
    (log : List (ServiceCall F)) :
    h.recording.orderService.GetOrder id (w, log) =
      ((h.orderService.GetOrder id w).1,
        ((h.orderService.GetOrder id w).2, log ++ [ServiceCall.GetOrder id])) := rfl

/-- What `OrderHandler.CreateOrder` does with a decoded request that has at
least one item: it calls the order service once, with that request; an error
of the service is answered 500 with the error's message; a response of the
service is answered 201, with the encoded response as body when
`encoding/json` can encode it and with an empty body when it cannot. -/
theorem handler_createOrder_outcomes {σ F : Type} [JSONFloat F] (h : OrderHandler σ F)
    (req : CreateOrderRequest F) (w : σ) (hitems : req.Order.Items ≠ []) :
    h.CreateOrderCalls (.ok req) w = [ServiceCall.CreateOrder req] ∧
    match (h.orderService.CreateOrder req w).1 with
    | .error err =>
      (h.CreateOrder (.ok req) w).1.status = 500 ∧
      (h.CreateOrder (.ok req) w).1.body = .text (err.Error ++ "\n") ∧
      (h.CreateOrder (.ok req) w).1.body.ContainsText err.Error
    | .ok response =>
      (h.CreateOrder (.ok req) w).1.status = 201 ∧
      (h.CreateOrder (.ok req) w).1.contentType = "application/json" ∧
      (h.CreateOrder (.ok req) w).1.body =
        if response.encodable then .json response else .empty := by
  have hlen : ¬ req.Order.Items.length = 0 := by
    intro h0; exact hitems (List.length_eq_zero.mp h0)
  constructor
  · unfold OrderHandler.CreateOrderCalls
    simp only [OrderHandler.CreateOrder, hlen, if_false, handler_recording_createOrder]
    rcases hc : h.orderService.CreateOrder req w with ⟨r, w1⟩
    cases r <;> simp
  · simp only [OrderHandler.CreateOrder, hlen, if_false]
    rcases hc : h.orderService.CreateOrder req w with ⟨r, w1⟩
    cases r with
    | error err =>
      exact ⟨rfl, rfl, containsText_httpError err.Error StatusInternalServerError⟩
    | ok response =>
      refine ⟨rfl, rfl, ?_⟩
      simp only [jsonEncode]
      split <;> rfl

/-- The request of "Successful order creation", handled over integer prices:
one service call, status 201, the response as JSON body. -/
theorem handler_createOrder_outcomes_witness :
    testRequest.Order.Items ≠ [] ∧
    testHandler.CreateOrderCalls (.ok testRequest) () = [ServiceCall.CreateOrder testRequest] ∧
    (testHandler.CreateOrder (.ok testRequest) ()).1 =
      { status := 201, contentType := "application/json",
        body := .json
          { OrderID := 1, OrderPrice := 35, OrderVAT := 8,
            Items := [{ ProductID := 1, Quantity := 2, Price := 20, VAT := 2 },
                      { ProductID := 2, Quantity := 3, Price := 15, VAT := 6 }] } } :=
  ⟨by decide, (handler_createOrder_outcomes testHandler testRequest () (by decide)).1,
    by decide⟩

/-- C9 fails on the code where the service's response cannot be encoded: for
an order of one unit of product 3, whose unit price is `+Inf`, the service is
called once and returns a response with `order_price` `+Inf`; the handler
answers 201 with an empty body, not with a JSON body encoding that response
(line 59 discards the error of `Encode`, after line 58 has written the
status). -/
theorem handler_createOrder_unencodable :
    (specialRequest [(3, 1)]).Order.Items ≠ [] ∧
    specialHandler.CreateOrderCalls (.ok (specialRequest [(3, 1)])) () =
      [ServiceCall.CreateOrder (specialRequest [(3, 1)])] ∧
    (specialHandler.orderService.CreateOrder (specialRequest [(3, 1)]) ()).1 =
      .ok { OrderID := 1, OrderPrice := .posInf, OrderVAT := .finite 1,
            Items := [{ ProductID := 3, Quantity := 1, Price := .posInf, VAT := .finite 1 }] } ∧
    (specialHandler.CreateOrder (.ok (specialRequest [(3, 1)])) ()).1 =
      { status := 201, contentType := "application/json", body := .empty } := by
  decide

/-- A value read by `ParseInt` is a signed 64-bit integer. -/
theorem ParseInt_range (s : String) (n : Int) (h : ParseInt s = .ok n) :
    -(2 ^ 63 : Int) ≤ n ∧ n < 2 ^ 63 := by
  unfold ParseInt at h
  split at h
  · simp at h
  · rename_i c cs _
    simp only at h
    split at h
    · simp at h
    · rename_i un _
      by_cases hneg : c = '-'
      · by_cases hbig : 9223372036854775808 < un
        · simp [hneg, hbig] at h
        · simp [hneg, hbig] at h
          omega
      · by_cases hbig : 9223372036854775808 ≤ un
        · simp [hneg, hbig] at h
        · simp [hneg, hbig] at h
          omega

/-- What `OrderHandler.GetOrder` does with the `id` path segment: when it does
not parse as a base-10 signed 64-bit integer the response is 400 with the text
"Invalid order ID" and the order service is not called; otherwise the
service's `GetOrder` is called once, with the parsed value; an error of the
service is answered 404 with the error's message; a response of the service is
answered 200, with the encoded response as body when `encoding/json` can
encode it and with an empty body when it cannot. -/
theorem handler_getOrder_outcomes {σ F : Type} [JSONFloat F] (h : OrderHandler σ F)
    (idVar : String) (w : σ) :
    match ParseInt idVar with
    | .error _ =>
      (h.GetOrder idVar w).1.status = 400 ∧
      (h.GetOrder idVar w).1.body.ContainsText "Invalid order ID" ∧
      h.GetOrderCalls idVar w = []
    | .ok id =>
      (-(2 ^ 63 : Int) ≤ id ∧ id < 2 ^ 63) ∧
      h.GetOrderCalls idVar w = [ServiceCall.GetOrder id] ∧
      match (h.orderService.GetOrder id w).1 with
      | .error err =>
        (h.GetOrder idVar w).1.status = 404 ∧
        (h.GetOrder idVar w).1.body = .text (err.Error ++ "\n") ∧
        (h.GetOrder idVar w).1.body.ContainsText err.Error
      | .ok response =>
        (h.GetOrder idVar w).1.status = 200 ∧
        (h.GetOrder idVar w).1.body =
          if response.encodable then .json response else .empty := by
  unfold OrderHandler.GetOrderCalls
  simp only [OrderHandler.GetOrder]
  cases hp : ParseInt idVar with
  | error e =>
    exact ⟨rfl, containsText_httpError "Invalid order ID" StatusBadRequest, rfl⟩
  | ok id =>
    simp only [handler_recording_getOrder]
    rcases hc : h.orderService.GetOrder id w with ⟨r, w1⟩
    cases r with
    | error err =>
      exact ⟨ParseInt_range idVar id hp, by simp, rfl, rfl,
        containsText_httpError err.Error StatusNotFound⟩
    | ok response =>
      refine ⟨ParseInt_range idVar id hp, by simp, rfl, ?_⟩
      simp only [jsonEncode]
      split <;> rfl

/-- C10 fails on the code where the service's response cannot be encoded: for
the path segment `1`, the stored order 1 having a VAT that is NaN, the service
is called once, with 1, and returns the order as a response; the handler
answers 200 with an empty body, not with the service's response (line 90
discards the error of `Encode`). -/
theorem handler_getOrder_unencodable :
    ParseInt "1" = .ok 1 ∧
    specialHandler.GetOrderCalls "1" () = [ServiceCall.GetOrder 1] ∧
    (specialHandler.orderService.GetOrder 1 ()).1 =
      .ok { OrderID := 1, OrderPrice := .finite 20, OrderVAT := .nan,
            Items := [{ ProductID := 1, Quantity := 2, Price := .finite 20, VAT := .nan }] } ∧
    (specialHandler.GetOrder "1" ()).1 =
      { status := 200, contentType := "application/json", body := .empty } := by
  decide

/-- The scenarios of `TestGetOrder` in `order_handler_test.go`: `abc` is
answered 400 without a service call, `999` (no such order) 404, `1` 200 with
the order as JSON body. -/
theorem handler_getOrder_scenarios :
    (testHandler.GetOrder "abc" ()).1.status = 400 ∧
    testHandler.GetOrderCalls "abc" () = [] ∧
    (testHandler.GetOrder "999" ()).1 =
      { status := 404, contentType := "text/plain; charset=utf-8",
        body := .text "order not found\n" } ∧
    testHandler.GetOrderCalls "999" () = [ServiceCall.GetOrder 999] ∧
    (testHandler.GetOrder "1" ()).1 =
      { status := 200, contentType := "application/json",
        body := .json
          { OrderID := 1, OrderPrice := 35, OrderVAT := 8,
            Items := [{ ProductID := 1, Quantity := 2, Price := 20, VAT := 2 },
                      { ProductID := 2, Quantity := 3, Price := 15, VAT := 6 }] } } ∧
    testHandler.GetOrderCalls "1" () = [ServiceCall.GetOrder 1] := by
  decide

/-! ## Order service: pricing, quantities, lookups, computed fields -/

/-- When no lookup made by `CreateOrder` failed, the run is the one that
reaches `Create`. -/
theorem createOrder_all_found {σ F : Type} [Float64 F] (s : OrderService σ F)
    (req : CreateOrderRequest F) (w : σ)
    (hlookups : ∀ c ∈ s.CreateOrderCalls req w, c.lookupSucceeded) :
    ∃ products ret, products.length = req.Order.Items.length ∧
      s.CreateOrderCalls req w =
        lookupsOk req.Order.Items products ++
          [RepoCall.orderCreate (pricedOrder req.Order.Items products) ret] := by
  rcases createOrder_run s req w with
    ⟨ps, w1, hlen, hcalls, _⟩ | ⟨pre, it, post, ps, err, _, _, hcalls, _⟩
  · exact ⟨ps, _, hlen, hcalls⟩
  · have hc := hlookups (RepoCall.productGetByID it.ProductID (.error err)) (by simp [hcalls])
    simp [RepoCall.lookupSucceeded] at hc

/-- The item at an index of the priced order. -/
theorem pricedOrder_item {F : Type} [Float64 F] (items : List (OrderItem F))
    (products : List (Product F)) (i : Nat) (item : OrderItem F) (product : Product F)
    (hitem : items[i]? = some item) (hproduct : products[i]? = some product) :
    (pricedOrder items products).Items[i]? =
      some { ProductID := item.ProductID, Quantity := item.Quantity,
             Price := Float64.mul product.Price (Float64.ofInt item.Quantity),
             VAT := Float64.mul product.VAT (Float64.ofInt item.Quantity) } := by
  simp [pricedOrder, List.getElem?_zipWith, hitem, hproduct, pricedItem]

/-- C12: when every product lookup made by `CreateOrder` returns a product,
the order passed to `Create` has as many items as the request, the item at
each position keeping the product identifier and the quantity of the request
item at that position and carrying `product.Price * float64(quantity)` as
price and `product.VAT * float64(quantity)` as VAT, `product` being what the
lookup for that item returned; the totals are the sums of these.  In the
scenario of the tests (product 1 at 10.0 / 1.0, product 2 at 5.0 / 0.5, items
`[{1, qty 2}, {2, qty 3}]`, exact arithmetic) the order passed to `Create` has
item prices 20 and 15, item VATs 2 and 1.5, totals 35 and 3.5. -/
theorem createOrder_priced_items :
    (∀ {σ F : Type} [Float64 F] (s : OrderService σ F) (req : CreateOrderRequest F) (w : σ),
      (∀ c ∈ s.CreateOrderCalls req w, c.lookupSucceeded) →
      ∃ products order ret,
        products.length = req.Order.Items.length ∧
        s.CreateOrderCalls req w =
          lookupsOk req.Order.Items products ++ [RepoCall.orderCreate order ret] ∧
        order.Items.length = req.Order.Items.length ∧
        (∀ (i : Nat) (item : OrderItem F) (product : Product F),
          req.Order.Items[i]? = some item → products[i]? = some product →
          order.Items[i]? =
            some { ProductID := item.ProductID, Quantity := item.Quantity,
                   Price := Float64.mul product.Price (Float64.ofInt item.Quantity),
                   VAT := Float64.mul product.VAT (Float64.ofInt item.Quantity) }) ∧
        order.Price = sumLines Product.Price req.Order.Items products ∧
        order.VAT = sumLines Product.VAT req.Order.Items products) ∧
    scenarioService.CreateOrderCalls scenarioRequest () =
      ([RepoCall.productGetByID 1
          (.ok { ID := 1, Name := "Product 1", Price := 10, VAT := 1 }),
        RepoCall.productGetByID 2
          (.ok { ID := 2, Name := "Product 2", Price := 5, VAT := 1 / 2 }),
        RepoCall.orderCreate
          { ID := 0, Price := 35, VAT := 7 / 2, CreatedAt := 0,
            Items := [{ ProductID := 1, Quantity := 2, Price := 20, VAT := 2 },
                      { ProductID := 2, Quantity := 3, Price := 15, VAT := 3 / 2 }] }
          (.ok { ID := 1, Price := 35, VAT := 7 / 2, CreatedAt := 7,
                 Items := [{ ProductID := 1, Quantity := 2, Price := 20, VAT := 2 },
                           { ProductID := 2, Quantity := 3, Price := 15, VAT := 3 / 2 }] })] :
        List (RepoCall Rat)) := by
  constructor
  · intro σ F _ s req w hlookups
    obtain ⟨ps, ret, hlen, hcalls⟩ := createOrder_all_found s req w hlookups
    refine ⟨ps, pricedOrder req.Order.Items ps, ret, hlen, hcalls, ?_, ?_, rfl, rfl⟩
    · simp [pricedOrder, hlen]
    · intro i item product hitem hproduct
      exact pricedOrder_item _ _ i item product hitem hproduct
  · simp [OrderService.CreateOrderCalls, OrderService.recording, OrderRepository.recording,
      ProductRepository.recording, scenarioService, scenarioRequest, scenarioOrderRepo,
      scenarioProductRepo, NewOrderService, OrderService.CreateOrder,
      OrderService.pricingLoop, Float64.zero, Float64.add, Float64.mul, Float64.ofInt]
    norm_num

/-- C12, on the request of "Successful order creation" over integer prices. -/
theorem createOrder_priced_items_witness :
    (∀ c ∈ testService.CreateOrderCalls testRequest (), c.lookupSucceeded) ∧
    ∃ products order ret,
      products.length = testRequest.Order.Items.length ∧
      testService.CreateOrderCalls testRequest () =
        lookupsOk testRequest.Order.Items products ++ [RepoCall.orderCreate order ret] ∧
      order.Items.length = testRequest.Order.Items.length ∧
      (∀ (i : Nat) (item : OrderItem Int) (product : Product Int),
        testRequest.Order.Items[i]? = some item → products[i]? = some product →
        order.Items[i]? =
          some { ProductID := item.ProductID, Quantity := item.Quantity,
                 Price := Float64.mul product.Price (Float64.ofInt item.Quantity),
                 VAT := Float64.mul product.VAT (Float64.ofInt item.Quantity) }) ∧
      order.Price = sumLines Product.Price testRequest.Order.Items products ∧
      order.VAT = sumLines Product.VAT testRequest.Order.Items products :=
  ⟨by decide, createOrder_priced_items.1 testService testRequest () (by decide)⟩

theorem accumulate_append {F : Type} [Float64 F] (unit : Product F → F) (acc : F)
    (items rest : List (OrderItem F)) (products others : List (Product F))
    (hlen : products.length = items.length) :
    accumulate unit acc (items ++ rest) (products ++ others) =
      accumulate unit (accumulate unit acc items products) rest others := by
  unfold accumulate
  rw [List.zip_append hlen.symm, List.foldl_append]

/-- A list as long as `pre ++ item :: post` splits accordingly. -/
theorem split_products {α β : Type} (pre post : List α) (item : α) (products : List β)
    (hlen : products.length = (pre ++ item :: post).length) :
    ∃ psPre p psPost, products = psPre ++ p :: psPost ∧ psPre.length = pre.length ∧
      psPost.length = post.length := by
  have hsplit : products = products.take pre.length ++ products.drop pre.length :=
    (List.take_append_drop _ _).symm
  simp only [List.length_append, List.length_cons] at hlen
  cases hdrop : products.drop pre.length with
  | nil =>
    have h0 := congrArg List.length hdrop
    simp only [List.length_drop, List.length_nil] at h0
    omega
  | cons p psPost =>
    refine ⟨products.take pre.length, p, psPost, ?_, ?_, ?_⟩
    · rw [← hdrop]; exact hsplit
    · simp only [List.length_take]; omega
    · have h1 := congrArg List.length hdrop
      simp only [List.length_drop, List.length_cons] at h1
      omega

/-- The run of `CreateOrder` on a request split at one of its items, when every
lookup made returns a product: `Create` is reached, and the order it receives
carries for that item, at its position, `product.Price * float64(quantity)`
and `product.VAT * float64(quantity)`, with the totals summed over all
items. -/
theorem createOrder_split {σ F : Type} [Float64 F] (s : OrderService σ F)
    (req : CreateOrderRequest F) (w : σ) (pre post : List (OrderItem F)) (item : OrderItem F)
    (hitems : req.Order.Items = pre ++ item :: post)
    (hlookups : ∀ c ∈ s.CreateOrderCalls req w, c.lookupSucceeded) :
    ∃ psPre p psPost order ret,
      psPre.length = pre.length ∧ psPost.length = post.length ∧
      s.CreateOrderCalls req w =
        lookupsOk req.Order.Items (psPre ++ p :: psPost) ++
          [RepoCall.orderCreate order ret] ∧
      order.Items =
        List.zipWith pricedItem pre psPre ++
          { ProductID := item.ProductID, Quantity := item.Quantity,
            Price := Float64.mul p.Price (Float64.ofInt item.Quantity),
            VAT := Float64.mul p.VAT (Float64.ofInt item.Quantity) } ::
          List.zipWith pricedItem post psPost ∧
      order.Price = sumLines Product.Price req.Order.Items (psPre ++ p :: psPost) ∧
      order.VAT = sumLines Product.VAT req.Order.Items (psPre ++ p :: psPost) := by
  obtain ⟨ps, ret, hlen, hcalls⟩ := createOrder_all_found s req w hlookups
  rw [hitems] at hlen
  obtain ⟨psPre, p, psPost, rfl, hpre, hpost⟩ := split_products pre post item ps hlen
  refine ⟨psPre, p, psPost, pricedOrder req.Order.Items (psPre ++ p :: psPost), ret, hpre,
    hpost, hcalls, ?_, rfl, rfl⟩
  rw [hitems]
  simp only [pricedOrder]
  rw [List.zipWith_append _ _ _ _ _ hpre.symm]
  rfl

/-! ### Zeros of `Binary64` -/

theorem binary64_add_eq (a b : Binary64) : Float64.add a b = Binary64.add a b := rfl

theorem binary64_mul_eq (a b : Binary64) : Float64.mul a b = Binary64.mul a b := rfl

/-- A finite value times `float64(0)` is `+0` or `-0`. -/
theorem binary64_mul_zero (x : Binary64) (hx : x.isFinite = true) :
    (Binary64.mul x (.finite 0)).isZero = true := by
  cases x with
  | finite n =>
    by_cases hn : n < 0 <;>
      simp [Binary64.mul, Binary64.isNaN, Binary64.isInf, Binary64.isZero, Binary64.signbit, hn]
  | negZero => decide
  | posInf => simp [Binary64.isFinite, Binary64.isInf] at hx
  | negInf => simp [Binary64.isFinite, Binary64.isInf] at hx
  | nan => simp [Binary64.isFinite, Binary64.isInf, Binary64.isNaN] at hx

/-- Adding `+0` or `-0` to a value other than `-0` leaves it as it is. -/
theorem binary64_add_zero (t z : Binary64) (ht : t ≠ .negZero) (hz : z.isZero = true) :
    Binary64.add t z = t := by
  cases z with
  | finite n =>
    have hn : n = 0 := by simpa [Binary64.isZero] using hz
    subst hn
    cases t with
    | finite m => simp [Binary64.add, Binary64.isNaN, Binary64.isInf, Binary64.toInt]
    | negZero => exact absurd rfl ht
    | posInf => decide
    | negInf => decide
    | nan => decide
  | negZero =>
    cases t with
    | finite m => simp [Binary64.add, Binary64.isNaN, Binary64.isInf, Binary64.toInt]
    | negZero => exact absurd rfl ht
    | posInf => decide
    | negInf => decide
    | nan => decide
  | posInf => simp [Binary64.isZero] at hz
  | negInf => simp [Binary64.isZero] at hz
  | nan => simp [Binary64.isZero] at hz

/-- A sum is `-0` only if its first term is. -/
theorem binary64_add_ne_negZero (a b : Binary64) (ha : a ≠ .negZero) :
    Binary64.add a b ≠ .negZero := by
  unfold Binary64.add
  split
  · simp
  · split
    · simp
    · split
      · exact ha
      · split
        · rename_i hb
          cases b <;> simp [Binary64.isInf] at hb ⊢
        · split
          · rename_i h
            simp only [Bool.and_eq_true, beq_iff_eq] at h
            exact absurd h.1 ha
          · simp

/-- The running total never becomes `-0`. -/
theorem accumulate_ne_negZero (unit : Product Binary64 → Binary64) :
    ∀ (items : List (OrderItem Binary64)) (products : List (Product Binary64))
      (acc : Binary64), acc ≠ .negZero → accumulate unit acc items products ≠ .negZero := by
  intro items
  induction items with
  | nil => intro products acc h; simpa [accumulate] using h
  | cons item rest ih =>
    intro products acc h
    cases products with
    | nil => simpa [accumulate] using h
    | cons p ps =>
      rw [accumulate_cons]
      exact ih ps _ (binary64_add_ne_negZero _ _ h)

/-- In `Binary64`, an item of quantity zero whose unit value is finite has a
line that is `+0` or `-0`, and the total is the one of the request without that
item. -/
theorem sumLines_zero_quantity (unit : Product Binary64 → Binary64)
    (pre post : List (OrderItem Binary64)) (item : OrderItem Binary64)
    (psPre psPost : List (Product Binary64)) (p : Product Binary64)
    (hpre : psPre.length = pre.length) (hzero : item.Quantity = 0)
    (hfinite : (unit p).isFinite = true) :
    (Float64.mul (unit p) (Float64.ofInt item.Quantity)).isZero = true ∧
    sumLines unit (pre ++ item :: post) (psPre ++ p :: psPost) =
      sumLines unit (pre ++ post) (psPre ++ psPost) := by
  have hline : (Float64.mul (unit p) (Float64.ofInt item.Quantity)).isZero = true := by
    rw [hzero]
    exact binary64_mul_zero (unit p) hfinite
  refine ⟨hline, ?_⟩
  unfold sumLines
  rw [accumulate_append _ _ _ _ _ _ hpre, accumulate_append _ _ _ _ _ _ hpre,
    accumulate_cons, binary64_add_eq,
    binary64_add_zero _ _ (accumulate_ne_negZero unit pre psPre _ (by decide)) hline]

/-- C13, as stated, fails: product 3 exists and has the unit price `+Inf`; an
item of quantity zero for it is accepted without error, but its line price is
NaN, not 0, and the order price is NaN, where the request without that item
has the order price 20. -/
theorem createOrder_zero_quantity_counterexample :
    (∀ c ∈ specialService.CreateOrderCalls (specialRequest [(1, 2), (3, 0)]) (),
      c.lookupSucceeded) ∧
    (specialService.CreateOrder (specialRequest [(1, 2), (3, 0)]) ()).1 =
      .ok { OrderID := 1, OrderPrice := .nan, OrderVAT := .finite 2,
            Items := [{ ProductID := 1, Quantity := 2, Price := .finite 20, VAT := .finite 2 },
                      { ProductID := 3, Quantity := 0, Price := .nan, VAT := .finite 0 }] } ∧
    (specialService.CreateOrder (specialRequest [(1, 2)]) ()).1 =
      .ok { OrderID := 1, OrderPrice := .finite 20, OrderVAT := .finite 2,
            Items := [{ ProductID := 1, Quantity := 2, Price := .finite 20,
                        VAT := .finite 2 }] } := by
  decide

/-- C13, amended: `CreateOrder` does not look at a quantity.  When every
lookup made returns a product, `Create` is called whatever the quantities, and
the order it receives carries for each item, at its position, the price
`product.Price * float64(quantity)` and the VAT `product.VAT * float64(quantity)`,
a zero or negative quantity included, the totals being summed over all items.
In `Binary64`, when the quantity of an item is zero and the unit price of its
product is finite, the line price is `+0` or `-0` and the order price is the
one of the request without that item; likewise for the VAT. -/
theorem createOrder_no_quantity_check :
    (∀ {σ F : Type} [Float64 F] (s : OrderService σ F) (req : CreateOrderRequest F) (w : σ)
      (pre post : List (OrderItem F)) (item : OrderItem F),
      req.Order.Items = pre ++ item :: post →
      (∀ c ∈ s.CreateOrderCalls req w, c.lookupSucceeded) →
      ∃ psPre p psPost order ret,
        psPre.length = pre.length ∧ psPost.length = post.length ∧
        s.CreateOrderCalls req w =
          lookupsOk req.Order.Items (psPre ++ p :: psPost) ++
            [RepoCall.orderCreate order ret] ∧
        order.Items =
          List.zipWith pricedItem pre psPre ++
            { ProductID := item.ProductID, Quantity := item.Quantity,
              Price := Float64.mul p.Price (Float64.ofInt item.Quantity),
              VAT := Float64.mul p.VAT (Float64.ofInt item.Quantity) } ::
            List.zipWith pricedItem post psPost ∧
        order.Price = sumLines Product.Price req.Order.Items (psPre ++ p :: psPost) ∧
        order.VAT = sumLines Product.VAT req.Order.Items (psPre ++ p :: psPost)) ∧
    (∀ {σ : Type} (s : OrderService σ Binary64) (req : CreateOrderRequest Binary64) (w : σ)
      (pre post : List (OrderItem Binary64)) (item : OrderItem Binary64),
      req.Order.Items = pre ++ item :: post → item.Quantity = 0 →
      (∀ c ∈ s.CreateOrderCalls req w, c.lookupSucceeded) →
      ∃ psPre p psPost order ret,
        psPre.length = pre.length ∧ psPost.length = post.length ∧
        s.CreateOrderCalls req w =
          lookupsOk req.Order.Items (psPre ++ p :: psPost) ++
            [RepoCall.orderCreate order ret] ∧
        order.Items =
          List.zipWith pricedItem pre psPre ++
            { ProductID := item.ProductID, Quantity := item.Quantity,
              Price := Float64.mul p.Price (Float64.ofInt item.Quantity),
              VAT := Float64.mul p.VAT (Float64.ofInt item.Quantity) } ::
            List.zipWith pricedItem post psPost ∧
        (p.Price.isFinite = true →
          (Float64.mul p.Price (Float64.ofInt item.Quantity)).isZero = true ∧
          order.Price = sumLines Product.Price (pre ++ post) (psPre ++ psPost)) ∧
        (p.VAT.isFinite = true →
          (Float64.mul p.VAT (Float64.ofInt item.Quantity)).isZero = true ∧
          order.VAT = sumLines Product.VAT (pre ++ post) (psPre ++ psPost))) := by
  constructor
  · intro σ F _ s req w pre post item hitems hlookups
    exact createOrder_split s req w pre post item hitems hlookups
  · intro σ s req w pre post item hitems hzero hlookups
    obtain ⟨psPre, p, psPost, order, ret, hpre, hpost, hcalls, hlines, hprice, hvat⟩ :=
      createOrder_split s req w pre post item hitems hlookups
    refine ⟨psPre, p, psPost, order, ret, hpre, hpost, hcalls, hlines, ?_, ?_⟩
    · intro hfinite
      have h := sumLines_zero_quantity Product.Price pre post item psPre psPost p hpre hzero
        hfinite
      exact ⟨h.1, by rw [hprice, hitems]; exact h.2⟩
    · intro hfinite
      have h := sumLines_zero_quantity Product.VAT pre post item psPre psPost p hpre hzero
        hfinite
      exact ⟨h.1, by rw [hvat, hitems]; exact h.2⟩

/-- C13 amended, on two requests.  Over integer prices: quantities 2, 0 and
-3, split at the item of quantity zero.  Over `Binary64`: an item of quantity
zero for product 4, whose unit price is the finite value -5, between two other
items; the line price is `-0` and the order price 35 is the one of the two
other items. -/
theorem createOrder_no_quantity_check_witness :
    (∃ psPre p psPost order ret,
      psPre.length = 1 ∧ psPost.length = 1 ∧
      testService.CreateOrderCalls oddQuantitiesRequest () =
        lookupsOk oddQuantitiesRequest.Order.Items (psPre ++ p :: psPost) ++
          [RepoCall.orderCreate order ret] ∧
      order.Price =
        sumLines Product.Price oddQuantitiesRequest.Order.Items (psPre ++ p :: psPost)) ∧
    (∃ psPre p psPost order ret,
      psPre.length = 1 ∧ psPost.length = 1 ∧
      specialService.CreateOrderCalls (specialRequest [(1, 2), (4, 0), (2, 3)]) () =
        lookupsOk (specialRequest [(1, 2), (4, 0), (2, 3)]).Order.Items
          (psPre ++ p :: psPost) ++ [RepoCall.orderCreate order ret] ∧
      (p.Price.isFinite = true →
        (Float64.mul p.Price (Float64.ofInt 0)).isZero = true ∧
        order.Price = sumLines Product.Price (specialRequest [(1, 2), (2, 3)]).Order.Items
          (psPre ++ psPost))) ∧
    (specialService.CreateOrder (specialRequest [(1, 2), (4, 0), (2, 3)]) ()).1 =
      .ok { OrderID := 1, OrderPrice := .finite 35, OrderVAT := .finite 8,
            Items := [{ ProductID := 1, Quantity := 2, Price := .finite 20, VAT := .finite 2 },
                      { ProductID := 4, Quantity := 0, Price := .negZero, VAT := .finite 0 },
                      { ProductID := 2, Quantity := 3, Price := .finite 15,
                        VAT := .finite 6 }] } :=
  ⟨(createOrder_no_quantity_check.1 testService oddQuantitiesRequest ()
      [{ ProductID := 1, Quantity := 2, Price := 0, VAT := 0 }]
      [{ ProductID := 1, Quantity := -3, Price := 0, VAT := 0 }]
      { ProductID := 2, Quantity := 0, Price := 0, VAT := 0 } (by decide) (by decide)).imp
      fun _ h => h.imp fun _ h => h.imp fun _ h => h.imp fun _ h => h.imp fun _ h =>
        ⟨h.1, h.2.1, h.2.2.1, h.2.2.2.2.1⟩,
    (createOrder_no_quantity_check.2 specialService (specialRequest [(1, 2), (4, 0), (2, 3)]) ()
      [{ ProductID := 1, Quantity := 2, Price := .finite 0, VAT := .finite 0 }]
      [{ ProductID := 2, Quantity := 3, Price := .finite 0, VAT := .finite 0 }]
      { ProductID := 4, Quantity := 0, Price := .finite 0, VAT := .finite 0 }
      (by decide) rfl (by decide)).imp
      fun _ h => h.imp fun _ h => h.imp fun _ h => h.imp fun _ h => h.imp fun _ h =>
        ⟨h.1, h.2.1, h.2.2.1, h.2.2.2.2.1⟩,
    by decide⟩

/-- The request with quantities 2, 0 and -3 is accepted: the order passed to
`Create` has line prices 20, 0 and -30 and total price -10. -/
theorem createOrder_odd_quantities_scenario :
    (testService.CreateOrder oddQuantitiesRequest ()).1 =
      .ok { OrderID := 1, OrderPrice := -10, OrderVAT := -1,
            Items := [{ ProductID := 1, Quantity := 2, Price := 20, VAT := 2 },
                      { ProductID := 2, Quantity := 0, Price := 0, VAT := 0 },
                      { ProductID := 1, Quantity := -3, Price := -30, VAT := -3 }] } := by
  decide

theorem filterMap_lookupID_lookupsOk {F : Type} :
    ∀ (items : List (OrderItem F)) (products : List (Product F)),
      products.length = items.length →
      (lookupsOk items products).filterMap RepoCall.lookupID =
        items.map OrderItem.ProductID := by
  intro items
  induction items with
  | nil => intro products _; simp [lookupsOk]
  | cons item rest ih =>
    intro products hlen
    cases products with
    | nil => simp at hlen
    | cons p ps =>
      have hrest := ih ps (by simpa using hlen)
      simp only [lookupsOk] at hrest
      simp [lookupsOk, RepoCall.lookupID, hrest]

/-- The loop over a product repository that answers from a catalogue: the
identifiers looked up are those of the items up to and including the first one
missing from the catalogue, no `Create` is recorded, and the loop succeeds
exactly when every item is in the catalogue. -/
theorem pricingLoop_catalogue {σ F : Type} [Float64 F] (s : OrderService σ F)
    (catalogue : Int → Except GoError (Product F))
    (hcat : ∀ id w, s.productRepo.GetByID id w = (catalogue id, w)) :
    ∀ (items : List (OrderItem F)) (tp tv : F) (w : σ) (log : List (RepoCall F)),
      (s.recording.pricingLoop items tp tv (w, log)).2.2.filterMap RepoCall.lookupID =
          log.filterMap RepoCall.lookupID ++ untilFirstFailure catalogue items ∧
        (s.recording.pricingLoop items tp tv (w, log)).2.2.filter RepoCall.isOrderCreate =
          log.filter RepoCall.isOrderCreate ∧
        ((∃ r, (s.recording.pricingLoop items tp tv (w, log)).1 = .ok r) ↔
          allFound catalogue items = true) := by
  intro items
  induction items with
  | nil =>
    intro tp tv w log
    simp [OrderService.pricingLoop, untilFirstFailure, allFound]
  | cons item rest ih =>
    intro tp tv w log
    cases hc : catalogue item.ProductID with
    | error err =>
      have hr := recording_productGetByID s item.ProductID w log (.error err) w
        (by rw [hcat, hc])
      rw [pricingLoop_cons_error s.recording item rest tp tv _ _ err hr]
      simp [untilFirstFailure, allFound, hc, RepoCall.lookupID, RepoCall.isOrderCreate]
    | ok p =>
      have hr := recording_productGetByID s item.ProductID w log (.ok p) w
        (by rw [hcat, hc])
      rw [pricingLoop_cons_ok s.recording item rest tp tv _ _ p hr]
      obtain ⟨h1, h2, h3⟩ := ih
        (Float64.add tp (Float64.mul p.Price (Float64.ofInt item.Quantity)))
        (Float64.add tv (Float64.mul p.VAT (Float64.ofInt item.Quantity))) w
        (log ++ [RepoCall.productGetByID item.ProductID (.ok p)])
      have hall : allFound catalogue (item :: rest) = allFound catalogue rest := by
        simp [allFound, hc]
      rcases hloop : s.recording.pricingLoop rest
          (Float64.add tp (Float64.mul p.Price (Float64.ofInt item.Quantity)))
          (Float64.add tv (Float64.mul p.VAT (Float64.ofInt item.Quantity)))
          (w, log ++ [RepoCall.productGetByID item.ProductID (.ok p)]) with ⟨r, w1, log1⟩
      rw [hloop] at h1 h2 h3
      simp only at h1 h2 h3
      cases r with
      | error e =>
        refine ⟨?_, ?_, ?_⟩
        · simp [h1, untilFirstFailure, hc, RepoCall.lookupID]
        · simp [h2, RepoCall.isOrderCreate]
        · rw [hall, ← h3]
      | ok r =>
        refine ⟨?_, ?_, ?_⟩
        · simp [h1, untilFirstFailure, hc, RepoCall.lookupID]
        · simp [h2, RepoCall.isOrderCreate]
        · rw [hall, ← h3]; simp

/-- The calls of `CreateOrder` over a product repository that answers from a
catalogue. -/
theorem createOrder_catalogue {σ F : Type} [Float64 F] (s : OrderService σ F)
    (catalogue : Int → Except GoError (Product F))
    (hcat : ∀ id w, s.productRepo.GetByID id w = (catalogue id, w))
    (req : CreateOrderRequest F) (w : σ) :
    (s.CreateOrderCalls req w).filterMap RepoCall.lookupID =
        untilFirstFailure catalogue req.Order.Items ∧
      ((s.CreateOrderCalls req w).filter RepoCall.isOrderCreate).length =
        (if allFound catalogue req.Order.Items then 1 else 0) := by
  obtain ⟨h1, h2, h3⟩ := pricingLoop_catalogue s catalogue hcat req.Order.Items
    Float64.zero Float64.zero w []
  unfold OrderService.CreateOrderCalls
  rcases hloop : s.recording.pricingLoop req.Order.Items Float64.zero Float64.zero (w, [])
    with ⟨r, w1, log1⟩
  rw [hloop] at h1 h2 h3
  simp only [List.filterMap_nil, List.nil_append, List.filter_nil] at h1 h2 h3
  cases r with
  | error e =>
    rw [createOrder_of_loop_error s.recording req _ _ _ hloop]
    have hnot : allFound catalogue req.Order.Items = false := by
      cases hall : allFound catalogue req.Order.Items with
      | false => rfl
      | true =>
        obtain ⟨r, hr⟩ := h3.mpr hall
        simp at hr
    simp [h1, h2, hnot]
  | ok r =>
    obtain ⟨its, tp, tv⟩ := r
    have hall : allFound catalogue req.Order.Items = true := h3.mp ⟨_, rfl⟩
    rw [createOrder_of_loop_ok s.recording req _ _ _ _ _ hloop, recording_orderCreate]
    rcases hcreate : s.orderRepo.Create
        { ID := 0, Items := its, Price := tp, VAT := tv, CreatedAt := 0 } w1 with ⟨ret, w2⟩
    cases ret <;> simp [h1, h2, hall, RepoCall.lookupID, RepoCall.isOrderCreate]

/-- C14: the calls of `CreateOrder` have one of two shapes.  Either one lookup
per item was made, in request order, each returning a product, and then
`Create` was called, once; or the lookups of the items before some item
returned products, the lookup of that item returned an error, and nothing was
called after it: no further lookup, no second lookup of an identifier already
asked for, no `Create`.  Over a product repository that answers from a
catalogue, the identifiers looked up are those of the items in request order
up to and including the first one missing from the catalogue, and `Create` is
called once if every item is in the catalogue and not at all otherwise. -/
theorem createOrder_lookup_sequence :
    (∀ {σ F : Type} [Float64 F] (s : OrderService σ F) (req : CreateOrderRequest F) (w : σ),
      (∃ products order ret,
        products.length = req.Order.Items.length ∧
        s.CreateOrderCalls req w =
          lookupsOk req.Order.Items products ++ [RepoCall.orderCreate order ret] ∧
        (s.CreateOrderCalls req w).filterMap RepoCall.lookupID =
          req.Order.Items.map OrderItem.ProductID) ∨
      (∃ pre item post products err,
        req.Order.Items = pre ++ item :: post ∧ products.length = pre.length ∧
        s.CreateOrderCalls req w =
          lookupsOk pre products ++ [RepoCall.productGetByID item.ProductID (.error err)] ∧
        (s.CreateOrderCalls req w).filterMap RepoCall.lookupID =
          (pre ++ [item]).map OrderItem.ProductID)) ∧
    (∀ {σ F : Type} [Float64 F] (s : OrderService σ F)
      (catalogue : Int → Except GoError (Product F)) (req : CreateOrderRequest F) (w : σ),
      (∀ id w1, s.productRepo.GetByID id w1 = (catalogue id, w1)) →
      (s.CreateOrderCalls req w).filterMap RepoCall.lookupID =
          untilFirstFailure catalogue req.Order.Items ∧
        ((s.CreateOrderCalls req w).filter RepoCall.isOrderCreate).length =
          (if allFound catalogue req.Order.Items then 1 else 0)) := by
  constructor
  · intro σ F _ s req w
    rcases createOrder_run s req w with
      ⟨ps, w1, hlen, hcalls, _⟩ | ⟨pre, it, post, ps, err, hsplit, hlen, hcalls, _⟩
    · left
      refine ⟨ps, _, _, hlen, hcalls, ?_⟩
      rw [hcalls, List.filterMap_append, filterMap_lookupID_lookupsOk _ _ hlen]
      simp [RepoCall.lookupID]
    · right
      refine ⟨pre, it, post, ps, err, hsplit, hlen, hcalls, ?_⟩
      rw [hcalls, List.filterMap_append, filterMap_lookupID_lookupsOk _ _ hlen]
      simp [RepoCall.lookupID]
  · intro σ F _ s catalogue req w hcat
    exact createOrder_catalogue s catalogue hcat req w

/-- C14, on three requests sent to the test service, whose product repository
answers from a catalogue holding products 1 and 2: all items found; the second
of three items unknown; the first item unknown. -/
theorem createOrder_lookup_sequence_witness :
    (testService.CreateOrderCalls testRequest ()).filterMap RepoCall.lookupID = [1, 2] ∧
    ((testService.CreateOrderCalls testRequest ()).filter RepoCall.isOrderCreate).length = 1 ∧
    (testService.CreateOrderCalls (requestOf [(1, 2), (999, 1), (2, 3)]) ()).filterMap
      RepoCall.lookupID = [1, 999] ∧
    (testService.CreateOrderCalls (requestOf [(1, 2), (999, 1), (2, 3)]) ()).filter
      RepoCall.isOrderCreate = [] ∧
    (testService.CreateOrderCalls unknownProductRequest ()).filterMap RepoCall.lookupID =
      untilFirstFailure (fun id => (testProductRepo.GetByID id ()).1)
        unknownProductRequest.Order.Items :=
  ⟨by decide, by decide, by decide, by decide,
    (createOrder_lookup_sequence.2 testService (fun id => (testProductRepo.GetByID id ()).1)
      unknownProductRequest () (fun _ _ => rfl)).1⟩

/-- The loop reads the product identifier and the quantity of an item and
nothing else of it. -/
theorem pricingLoop_congr {σ F : Type} [Float64 F] (s : OrderService σ F) :
    ∀ (items1 items2 : List (OrderItem F)) (tp tv : F) (w : σ),
      items1.map OrderItem.key = items2.map OrderItem.key →
      s.pricingLoop items1 tp tv w = s.pricingLoop items2 tp tv w := by
  intro items1
  induction items1 with
  | nil =>
    intro items2 tp tv w h
    cases items2 with
    | nil => rfl
    | cons _ _ => simp at h
  | cons a rest ih =>
    intro items2 tp tv w h
    cases items2 with
    | nil => simp at h
    | cons b rest2 =>
      simp only [List.map_cons, List.cons.injEq, OrderItem.key, Prod.mk.injEq] at h
      obtain ⟨⟨hid, hqty⟩, hrest⟩ := h
      rcases hget : s.productRepo.GetByID a.ProductID w with ⟨r, w1⟩
      have hget2 : s.productRepo.GetByID b.ProductID w = (r, w1) := by rw [← hid]; exact hget
      cases r with
      | error err =>
        rw [pricingLoop_cons_error s a rest tp tv _ _ err hget,
          pricingLoop_cons_error s b rest2 tp tv _ _ err hget2, hid]
      | ok p =>
        rw [pricingLoop_cons_ok s a rest tp tv _ _ p hget,
          pricingLoop_cons_ok s b rest2 tp tv _ _ p hget2, hqty,
          ih rest2 _ _ w1 (by simpa [OrderItem.key] using hrest)]
        have hpriced : pricedItem a p = pricedItem b p := by
          simp [pricedItem, hid, hqty]
        rw [hpriced]

/-- C15: two requests whose items carry the same product identifiers and
quantities, in the same order, make `CreateOrder` issue the same calls with
the same arguments (the order passed to `Create` among them) and return the
same result, whatever prices and VAT values the items of the requests
carry. -/
theorem createOrder_ignores_computed_fields {σ F : Type} [Float64 F] (s : OrderService σ F)
    (req1 req2 : CreateOrderRequest F) (w : σ)
    (hkeys : req1.Order.Items.map OrderItem.key = req2.Order.Items.map OrderItem.key) :
    s.CreateOrderCalls req1 w = s.CreateOrderCalls req2 w ∧
    s.CreateOrder req1 w = s.CreateOrder req2 w := by
  constructor
  · unfold OrderService.CreateOrderCalls
    simp only [OrderService.CreateOrder, pricingLoop_congr s.recording _ _ _ _ _ hkeys]
  · simp only [OrderService.CreateOrder, pricingLoop_congr s _ _ _ _ _ hkeys]

/-- C15, on the request of "Successful order creation" and the same request
with prices and VAT filled in by the caller. -/
theorem createOrder_ignores_computed_fields_witness :
    (testRequest.Order.Items.map OrderItem.key = forgedRequest.Order.Items.map OrderItem.key ∧
      testRequest ≠ forgedRequest) ∧
    testService.CreateOrderCalls testRequest () = testService.CreateOrderCalls forgedRequest () ∧
    testService.CreateOrder testRequest () = testService.CreateOrder forgedRequest () :=
  ⟨by decide, createOrder_ignores_computed_fields testService testRequest forgedRequest ()
    (by decide)⟩

/-! ## Order store: atomicity of `Create` -/

theorem rollback_db {F : Type} (tx : Tx F) : tx.Rollback.2.db = tx.db := by
  unfold Tx.Rollback
  split <;> rfl

/-- One step of the item loop on an open transaction whose insert fails. -/
theorem createLoop_cons_fail {F : Type} (answers : Nat → Option GoError) (orderID : Int)
    (item : OrderItem F) (rest : List (OrderItem F)) (i : Nat) (tx : Tx F) (err : GoError)
    (hdone : tx.done = false) (hans : answers i = some err) :
    OrderRepo.Create.loop answers orderID i (item :: rest) tx = (some err, tx) := by
  simp [OrderRepo.Create.loop, Tx.insertOrderItem, hdone, hans]

/-- One step of the item loop on an open transaction whose insert succeeds. -/
theorem createLoop_cons_ok {F : Type} (answers : Nat → Option GoError) (orderID : Int)
    (item : OrderItem F) (rest : List (OrderItem F)) (i : Nat) (tx : Tx F)
    (hdone : tx.done = false) (hans : answers i = none) :
    OrderRepo.Create.loop answers orderID i (item :: rest) tx =
      OrderRepo.Create.loop answers orderID (i + 1) rest
        { tx with order_items := tx.order_items ++ [itemRow orderID item] } := by
  simp [OrderRepo.Create.loop, Tx.insertOrderItem, hdone, hans, itemRow]

/-- One step of the item loop on a transaction that is over. -/
theorem createLoop_cons_done {F : Type} (answers : Nat → Option GoError) (orderID : Int)
    (item : OrderItem F) (rest : List (OrderItem F)) (i : Nat) (tx : Tx F)
    (hdone : tx.done = true) :
    OrderRepo.Create.loop answers orderID i (item :: rest) tx = (some ErrTxDone, tx) := by
  simp [OrderRepo.Create.loop, Tx.insertOrderItem, hdone]

/-- The item loop leaves the durable state, the header rows written and the
status of the transaction as they are. -/
theorem createLoop_frame {F : Type} (answers : Nat → Option GoError) (orderID : Int) :
    ∀ (items : List (OrderItem F)) (i : Nat) (tx : Tx F),
      (OrderRepo.Create.loop answers orderID i items tx).2.db = tx.db ∧
      (OrderRepo.Create.loop answers orderID i items tx).2.orders = tx.orders ∧
      (OrderRepo.Create.loop answers orderID i items tx).2.done = tx.done := by
  intro items
  induction items with
  | nil => intro i tx; simp [OrderRepo.Create.loop]
  | cons item rest ih =>
    intro i tx
    cases hdone : tx.done with
    | true => rw [createLoop_cons_done answers orderID item rest i tx hdone]; simp [hdone]
    | false =>
      cases hans : answers i with
      | some err =>
        rw [createLoop_cons_fail answers orderID item rest i tx err hdone hans]; simp [hdone]
      | none =>
        rw [createLoop_cons_ok answers orderID item rest i tx hdone hans]
        have h := ih (i + 1) { tx with order_items := tx.order_items ++ [itemRow orderID item] }
        simpa [hdone] using h

/-- The item loop on an open transaction succeeds exactly when the insert of
every item does, and then it has written one row per item, in order. -/
theorem createLoop_ok {F : Type} (answers : Nat → Option GoError) (orderID : Int) :
    ∀ (items : List (OrderItem F)) (i : Nat) (tx : Tx F), tx.done = false →
      ((OrderRepo.Create.loop answers orderID i items tx).1 = none ↔
        ∀ j, j < items.length → answers (i + j) = none) ∧
      ((OrderRepo.Create.loop answers orderID i items tx).1 = none →
        (OrderRepo.Create.loop answers orderID i items tx).2.order_items =
          tx.order_items ++ items.map (itemRow orderID)) := by
  intro items
  induction items with
  | nil => intro i tx _; simp [OrderRepo.Create.loop]
  | cons item rest ih =>
    intro i tx hdone
    cases hans : answers i with
    | some err =>
      rw [createLoop_cons_fail answers orderID item rest i tx err hdone hans]
      refine ⟨⟨fun h => by simp at h, fun h => ?_⟩, fun h => by simp at h⟩
      have h0 := h 0 (by simp)
      simp [hans] at h0
    | none =>
      rw [createLoop_cons_ok answers orderID item rest i tx hdone hans]
      obtain ⟨h1, h2⟩ := ih (i + 1)
        { tx with order_items := tx.order_items ++ [itemRow orderID item] } hdone
      refine ⟨?_, ?_⟩
      · rw [h1]
        constructor
        · intro h j hj
          cases j with
          | zero => simpa using hans
          | succ k =>
            have := h k (by simpa using hj)
            rw [← this]; congr 1; omega
        · intro h j hj
          have := h (j + 1) (by simpa using hj)
          rw [← this]; congr 1; omega
      · intro h
        rw [h2 h]
        simp

/-- C11: `OrderRepo.Create` is atomic.  Whatever the database answers to the
statements of the call, when `Create` returns an error the durable state is
the one before the call, and when it returns an order the table `orders` has
gained exactly one row, carrying the identifier and timestamp returned and the
totals of the order, and the table `order_items` exactly one row per item of
the order, in order, each carrying that identifier.  `Create` returns an order
exactly when no statement fails, so that a failure of `BeginTx`, of the header
insert, of the insert of any item or of `Commit` is such an error. -/
theorem orderRepo_create_atomic {F : Type} (answers : Answers) (order : Order F)
    (db : Database F) :
    (match (OrderRepo.Create answers order db).1 with
      | .error _ => (OrderRepo.Create answers order db).2 = db
      | .ok created =>
        answers.insertOrder = .ok (created.ID, created.CreatedAt) ∧
        created = { order with ID := created.ID, CreatedAt := created.CreatedAt } ∧
        (OrderRepo.Create answers order db).2.orders =
          db.orders ++ [{ id := created.ID, price := order.Price, vat := order.VAT,
                          created_at := created.CreatedAt }] ∧
        (OrderRepo.Create answers order db).2.order_items =
          db.order_items ++ order.Items.map (itemRow created.ID)) ∧
    ((∃ created, (OrderRepo.Create answers order db).1 = .ok created) ↔
      answers.allSucceed order.Items.length) := by
  cases hb : answers.beginTx with
  | some err => simp [OrderRepo.Create, BeginTx, hb, Answers.allSucceed]
  | none =>
    cases hio : answers.insertOrder with
    | error err =>
      simp [OrderRepo.Create, BeginTx, hb, Tx.insertOrder, hio, Tx.Rollback,
        Answers.allSucceed]
    | ok r =>
      obtain ⟨id, createdAt⟩ := r
      have hframe := createLoop_frame answers.insertItem id order.Items 0
        { db := db, orders := [{ id := id, price := order.Price, vat := order.VAT,
                                 created_at := createdAt }],
          order_items := [], done := false }
      have hok := createLoop_ok answers.insertItem id order.Items 0
        { db := db, orders := [{ id := id, price := order.Price, vat := order.VAT,
                                 created_at := createdAt }],
          order_items := [], done := false } rfl
      rcases hloop : OrderRepo.Create.loop answers.insertItem id 0 order.Items
        { db := db, orders := [{ id := id, price := order.Price, vat := order.VAT,
                                 created_at := createdAt }],
          order_items := [], done := false } with ⟨r, tx2⟩
      rw [hloop] at hframe hok
      obtain ⟨db2, os2, ois2, d2⟩ := tx2
      simp only at hframe hok
      obtain ⟨hdb, hos, hd⟩ := hframe
      subst hdb hos hd
      cases r with
      | some err =>
        have hnot : ¬ ∀ j, j < order.Items.length → answers.insertItem j = none := by
          intro h
          have := hok.1.mpr (by simpa using h)
          simp at this
        simp [OrderRepo.Create, BeginTx, hb, Tx.insertOrder, hio, hloop, Tx.Rollback,
          Answers.allSucceed, hnot]
      | none =>
        have hrows := hok.2 rfl
        have hall : ∀ j, j < order.Items.length → answers.insertItem j = none := by
          simpa using hok.1.mp rfl
        simp only [List.nil_append] at hrows
        subst hrows
        cases hc : answers.commit with
        | some err =>
          simp [OrderRepo.Create, BeginTx, hb, Tx.insertOrder, hio, hloop, Tx.Commit, hc,
            Tx.Rollback, Answers.allSucceed]
        | none =>
          simp [OrderRepo.Create, BeginTx, hb, Tx.insertOrder, hio, hloop, Tx.Commit, hc,
            Tx.Rollback, Answers.allSucceed]
          exact hall

/-- The draft order of "Successful order creation" stored in a database that
holds one earlier order: with every statement succeeding the header row and
the two item rows are added; with the insert of the second item failing, or
with `Commit` failing, the database is as before. -/
theorem orderRepo_create_scenarios :
    OrderRepo.Create answersOk testDraftOrder testDatabase =
      (.ok { testDraftOrder with ID := 42, CreatedAt := 7 },
        { orders := [{ id := 41, price := 10, vat := 1, created_at := 3 },
                     { id := 42, price := 35, vat := 8, created_at := 7 }]
          order_items :=
            [{ order_id := 41, product_id := 1, quantity := 1, price := 10, vat := 1 },
             { order_id := 42, product_id := 1, quantity := 2, price := 20, vat := 2 },
             { order_id := 42, product_id := 2, quantity := 3, price := 15, vat := 6 }] }) ∧
    OrderRepo.Create answersItemFails testDraftOrder testDatabase =
      (.error (.new "connection reset"), testDatabase) ∧
    OrderRepo.Create answersCommitFails testDraftOrder testDatabase =
      (.error (.new "connection reset"), testDatabase) := by
  decide

end Orders
